import Mathlib

set_option maxHeartbeats 1000000

namespace Bcachefs

/-!
Shallow embedding of the bcachefs write-ahead journal core
(src/libbcachefs/journal.c of this repository).

The repository ships journal.c but not its headers (journal.h,
journal_types.h) nor journal_reclaim.c / journal_io.c / journal_sb.c;
definitions taken from those missing files are modelled from the
specification and carry a doc comment starting with "Modelled from the
spec:".  Everything else is a direct translation of journal.c.

Machine integers are modelled as Nat; the C bitfields of the packed
reservation word wrap where the source wraps (2-bit buffer index, 10-bit
per-slot refcounts).  A BUG_ON() firing in the source is modelled by the
translated function returning none.
-/

/-- Modelled from the spec: size of the fixed journal buffer pool
(JOURNAL_BUF_NR of journal_types.h, which is not in src); the spec gives
a fixed small ring, e.g. 4 slots. -/
def JOURNAL_BUF_NR : Nat := 4

/-- Modelled from the spec: index mask for the buffer pool
(JOURNAL_BUF_MASK of journal_types.h, not in src). -/
def JOURNAL_BUF_MASK : Nat := JOURNAL_BUF_NR - 1

/-- Modelled from the spec: the current-entry offset lives in a 20-bit
field of the packed reservation word (journal_types.h, not in src); its
maximal value is the ERROR sentinel. -/
def JOURNAL_ENTRY_OFFSET_MAX : Nat := 2 ^ 20 - 1

/-- Modelled from the spec: sentinel offset meaning CLOSED (no entry
open).  journal.c requires CLOSED to be above every real offset and
distinct from (below) ERROR. -/
def JOURNAL_ENTRY_CLOSED_VAL : Nat := JOURNAL_ENTRY_OFFSET_MAX - 1

/-- Modelled from the spec: sentinel offset meaning ERROR (journal has
failed permanently). -/
def JOURNAL_ENTRY_ERROR_VAL : Nat := JOURNAL_ENTRY_OFFSET_MAX

/-- Journal error codes, from the JOURNAL_ERRORS() table used by
journal.c (the x-macro list itself lives in the missing
journal_types.h; the constructors are exactly the codes journal.c
uses). -/
inductive journal_err where
  | ok
  | blocked
  | max_in_flight
  | journal_full
  | journal_pin_full
  | insufficient_devices
deriving DecidableEq, Repr, Inhabited

/-- Modelled from the spec: the single atomically updated reservation
word (union journal_res_state of journal_types.h, not in src): current
entry offset (20 bits, with CLOSED/ERROR sentinels), index of the open
buffer (2 bits), unwritten index (2 bits) and one 10-bit outstanding
reservation count per buffer slot. -/
structure journal_res_state where
  cur_entry_offset : Nat
  idx : Nat
  unwritten_idx : Nat
  buf0_count : Nat
  buf1_count : Nat
  buf2_count : Nat
  buf3_count : Nat
deriving DecidableEq, Repr, Inhabited

/-- Modelled from the spec: read the outstanding-reservation count of a
buffer slot (journal_state_count of journal.h, not in src). -/
def journal_state_count (s : journal_res_state) (i : Nat) : Nat :=
  match i % 4 with
  | 0 => s.buf0_count
  | 1 => s.buf1_count
  | 2 => s.buf2_count
  | _ => s.buf3_count

/-- Modelled from the spec: increment the outstanding-reservation count
of the slot s.idx (journal_state_inc of journal.h, not in src); the
count is a 10-bit field and wraps. -/
def journal_state_inc (s : journal_res_state) : journal_res_state :=
  match s.idx % 4 with
  | 0 => { s with buf0_count := (s.buf0_count + 1) % 1024 }
  | 1 => { s with buf1_count := (s.buf1_count + 1) % 1024 }
  | 2 => { s with buf2_count := (s.buf2_count + 1) % 1024 }
  | _ => { s with buf3_count := (s.buf3_count + 1) % 1024 }

/-- Modelled from the spec: decrement the outstanding-reservation count
of slot i (the atomic64_sub of bch2_journal_buf_put, journal.h, not in
src); the 10-bit field wraps. -/
def journal_state_dec (s : journal_res_state) (i : Nat) : journal_res_state :=
  match i % 4 with
  | 0 => { s with buf0_count := (s.buf0_count + 1023) % 1024 }
  | 1 => { s with buf1_count := (s.buf1_count + 1023) % 1024 }
  | 2 => { s with buf2_count := (s.buf2_count + 1023) % 1024 }
  | _ => { s with buf3_count := (s.buf3_count + 1023) % 1024 }

/-- journal.c line 40: an entry is open iff the current offset is below
the CLOSED sentinel. -/
def __journal_entry_is_open (s : journal_res_state) : Bool :=
  s.cur_entry_offset < JOURNAL_ENTRY_CLOSED_VAL

/-- One in-flight journal entry (struct journal_buf).  The byte payload
itself is not modelled; the header fields journal.c manipulates are. -/
structure journal_buf where
  data_seq : Nat
  data_u64s : Nat
  data_last_seq : Nat
  last_seq : Nat
  sectors : Nat
  disk_sectors : Nat
  buf_size : Nat
  u64s_reserved : Nat
  noflush : Bool
  must_flush : Bool
  separate_flush : Bool
  flush_time : Nat
  expires : Nat
  waiters : List Nat
deriving DecidableEq, Repr, Inhabited

/-- The pin FIFO (j->pin): one reference count per outstanding sequence.
counts.get i is the count of sequence (front + i); the back of the ring
is front + counts.length; size is the capacity. -/
structure journal_pin_fifo where
  front : Nat
  size : Nat
  counts : List Nat
deriving DecidableEq, Repr, Inhabited

def journal_pin_fifo.back (p : journal_pin_fifo) : Nat :=
  p.front + p.counts.length

def fifo_free (p : journal_pin_fifo) : Nat :=
  p.size - p.counts.length

/-- fifo_push_ref plus journal_pin_list_init(.., 1) from
journal_entry_open: push a fresh pin-list entry with count 1. -/
def fifo_push_pin (p : journal_pin_fifo) : journal_pin_fifo :=
  { p with counts := p.counts ++ [1] }

/-- The journal (struct journal), restricted to the state journal.c
reads and writes on the paths under verification.  Time sources
(jiffies, local_clock) and the per-device space summary recomputed by
bch2_journal_space_available are carried as explicit fields. -/
structure journal where
  reservations : journal_res_state
  seq : Nat
  seq_ondisk : Nat
  flushed_seq_ondisk : Nat
  last_seq_ondisk : Nat
  err_seq : Nat
  pin : journal_pin_fifo
  buf : List journal_buf
  blocked : Nat
  cur_entry_err : journal_err
  cur_entry_u64s : Nat
  cur_entry_sectors : Nat
  entry_u64s_reserved : Nat
  watermark : Nat
  buf_size_want : Nat
  can_discard : Bool
  res_get_blocked_start : Nat
  space_next_entry : Nat
  space_can_discard : Bool
  fatal : Bool
  jiffies : Nat
  last_flush_write : Nat
  flush_delay : Nat
  block_bits : Nat
deriving DecidableEq, Repr, Inhabited

def journal.getBuf (j : journal) (i : Nat) : journal_buf :=
  j.buf.getD (i % JOURNAL_BUF_NR) default

def journal.setBuf (j : journal) (i : Nat) (b : journal_buf) : journal :=
  { j with buf := j.buf.set (i % JOURNAL_BUF_NR) b }

/-- Modelled from the spec: journal_cur_seq of journal.h (not in src)
reads the sequence counter. -/
def journal_cur_seq (j : journal) : Nat := j.seq

/-- Modelled from the spec: journal_last_seq of journal.h (not in src)
reads the durable-pin watermark, the front of the pin FIFO (lowest
still-pinned sequence). -/
def journal_last_seq (j : journal) : Nat := j.pin.front

/-- Modelled from the spec: journal_last_unwritten_seq of journal.h
(not in src). -/
def journal_last_unwritten_seq (j : journal) : Nat := j.seq_ondisk + 1

/-- journal.c line 45. -/
def nr_unwritten_journal_entries (j : journal) : Nat := j.seq - j.seq_ondisk

/-- journal.c line 50. -/
def journal_entry_is_open (j : journal) : Bool :=
  __journal_entry_is_open j.reservations

/-- journal.c line 35. -/
def journal_seq_unwritten (j : journal) (seq : Nat) : Bool :=
  seq > j.seq_ondisk

/-- Modelled from the spec: bch2_journal_error of journal.h (not in
src): the journal is in the fatal error state iff the current offset is
the ERROR sentinel. -/
def bch2_journal_error (j : journal) : Bool :=
  j.reservations.cur_entry_offset = JOURNAL_ENTRY_ERROR_VAL

/-- Modelled from the spec: journal_cur_buf of journal.h (not in src):
the buffer slot named by the reservation word index. -/
def journal_cur_buf (j : journal) : journal_buf :=
  j.getBuf j.reservations.idx

/-- Modelled from the spec: byte size of the fixed on-disk entry header
(struct jset of the missing format header); the spec fixes its field
list but not its byte count, 64 is used as the concrete value. -/
def sizeof_jset : Nat := 64

/-- Modelled from the spec: journal_entry_overhead of journal.h (not in
src): header u64s plus the per-entry reserved u64s. -/
def journal_entry_overhead (j : journal) : Nat :=
  sizeof_jset / 8 + j.entry_u64s_reserved

/-- Modelled from the spec: vstruct_blocks_plus(..) << block_bits from
__journal_entry_close: the entry header plus payload, rounded up to the
block size, in sectors (a block is 512 << block_bits bytes). -/
def vstruct_close_sectors (data_u64s u64s_reserved block_bits : Nat) : Nat :=
  ((sizeof_jset + 8 * (data_u64s + u64s_reserved) + (512 <<< block_bits) - 1)
      / (512 <<< block_bits)) <<< block_bits

/-- Modelled from the spec: bch2_journal_reclaim_fast of
journal_reclaim.c (not in src): pop pin-list entries with a zero count
from the front of the ring, advancing the lowest pinned sequence. -/
def pin_trim : List Nat → Nat → List Nat × Nat
  | [], front => ([], front)
  | c :: rest, front =>
      if c = 0 then pin_trim rest (front + 1) else (c :: rest, front)

/-- Modelled from the spec: bch2_journal_reclaim_fast applied to the
whole journal. -/
def bch2_journal_reclaim_fast (j : journal) : journal :=
  let t := pin_trim j.pin.counts j.pin.front
  { j with pin := { j.pin with counts := t.1, front := t.2 } }

/-- Modelled from the spec: __bch2_journal_pin_put of journal_reclaim.c
(not in src): drop one reference from the pin-list entry of seq; when
it reaches zero the front of the ring is advanced past unpinned
entries. -/
def __bch2_journal_pin_put (j : journal) (seq : Nat) : journal :=
  let i := seq - j.pin.front
  let c := j.pin.counts.getD i 0
  let j' := { j with pin := { j.pin with counts := j.pin.counts.set i (c - 1) } }
  if c - 1 = 0 then bch2_journal_reclaim_fast j' else j'

/-- Modelled from the spec: bch2_journal_space_available of
journal_reclaim.c (not in src): recompute, from the per-device space
summary, the sector budget of the next entry, the corresponding
current-entry error and whether buckets are discardable. -/
def bch2_journal_space_available (j : journal) : journal :=
  { j with cur_entry_sectors := j.space_next_entry,
           cur_entry_err :=
             if j.space_next_entry = 0 then journal_err.journal_full
             else journal_err.ok,
           can_discard := j.space_can_discard }

/-- Modelled from the spec: bch2_journal_buf_put of journal.h (not in
src): drop the outstanding-reservation count of a slot; the actual
write submission that a final put triggers is external IO and is
modelled separately as the write-completion step. -/
def bch2_journal_buf_put (j : journal) (i : Nat) : journal :=
  { j with reservations := journal_state_dec j.reservations i }

/-- journal.c lines 93-157, __journal_entry_close: close the current
entry with the CLOSED or ERROR sentinel.  none models a BUG_ON firing
(invalid sentinel, measured sectors exceeding the budget, or a stamped
last_seq above the entry sequence). -/
def __journal_entry_close (j : journal) (closed_val : Nat) : Option journal :=
  if closed_val ≠ JOURNAL_ENTRY_CLOSED_VAL ∧ closed_val ≠ JOURNAL_ENTRY_ERROR_VAL then
    none
  else
    let old := j.reservations
    if old.cur_entry_offset = JOURNAL_ENTRY_ERROR_VAL ∨
       old.cur_entry_offset = closed_val then
      some j
    else
      let j1 := { j with reservations := { old with cur_entry_offset := closed_val } }
      if ¬ __journal_entry_is_open old then
        some j1
      else
        let b0 := j.getBuf old.idx
        let b1 := { b0 with data_u64s := old.cur_entry_offset }
        let sectors := vstruct_close_sectors b1.data_u64s b1.u64s_reserved j.block_bits
        if sectors > b1.sectors then
          none
        else
          let b2 := { b1 with sectors := sectors,
                              last_seq := journal_last_seq j,
                              data_last_seq := journal_last_seq j }
          if b2.last_seq > b2.data_seq then
            none
          else
            let j2 := j1.setBuf old.idx b2
            let j3 := __bch2_journal_pin_put j2 b2.data_seq
            let j4 := bch2_journal_space_available j3
            some (bch2_journal_buf_put j4 old.idx)

/-- journal.c lines 159-166: halt the journal by closing the current
entry with the ERROR sentinel and recording the sequence the error
happened at, if not already recorded. -/
def bch2_journal_halt (j : journal) : Option journal :=
  match __journal_entry_close j JOURNAL_ENTRY_ERROR_VAL with
  | none => none
  | some j1 =>
      some (if j1.err_seq = 0 then { j1 with err_seq := journal_cur_seq j1 } else j1)

/-- Modelled from the spec: hard maximum entry size
(JOURNAL_ENTRY_SIZE_MAX of journal_types.h, not in src); the spec only
requires a hard maximum on the wanted size. -/
def JOURNAL_ENTRY_SIZE_MAX : Nat := 4 * 2 ^ 20

def ERR_EAGAIN : Int := -11
def ERR_ENOMEM : Int := -12
def ERR_EIO : Int := -5
def ERR_ENOSPC : Int := -28
def ERR_EROFS : Int := -30

def JOURNAL_WATERMARK_any : Nat := 0
def JOURNAL_WATERMARK_copygc : Nat := 1
def JOURNAL_WATERMARK_reserved : Nat := 2

/-- A granted reservation (struct journal_res of journal.h, not in src;
Modelled from the spec: carries the assigned sequence number and byte
offset within the buffer). -/
structure journal_res where
  ref : Bool
  idx : Nat
  u64s : Nat
  offset : Nat
  seq : Nat
deriving DecidableEq, Repr, Inhabited

/-- Reservation request flags: the caller watermark bits plus the
NONBLOCK and CHECK flag bits, kept as explicit fields. -/
structure journal_res_flags where
  watermark : Nat
  nonblock : Bool
  check : Bool
deriving DecidableEq, Repr, Inhabited

/-- journal.c line 247: the sector budget journal_entry_open gives the
next buffer (min of the device budget and the allocated buffer size in
sectors). -/
def journal_entry_open_sectors (j : journal) : Nat :=
  min j.cur_entry_sectors
      ((j.getBuf ((journal_cur_seq j + 1) % JOURNAL_BUF_NR)).buf_size / 512)

/-- journal.c lines 249-251: the payload budget in u64s of the entry
being opened, clamped into [0, JOURNAL_ENTRY_CLOSED_VAL - 1] as a C
int. -/
def journal_entry_u64s_budget (j : journal) : Int :=
  min (max (((journal_entry_open_sectors j * 512) / 8 : Nat) -
              (journal_entry_overhead j : Int)) 0)
      ((JOURNAL_ENTRY_CLOSED_VAL : Int) - 1)

/-- journal.c lines 209-308, journal_entry_open: open the next entry.
Returns the journal error code and the resulting state; none models a
BUG_ON firing (called with an entry still open, a zero sector budget,
an ERROR offset reaching the CAS, a slot reopened with a nonzero
outstanding-reservation count, or an index/sequence mismatch). -/
def journal_entry_open (j : journal) : Option (journal_err × journal) :=
  if journal_entry_is_open j then none
  else if j.blocked ≠ 0 then some (journal_err.blocked, j)
  else if j.cur_entry_err ≠ journal_err.ok then some (j.cur_entry_err, j)
  else if bch2_journal_error j then some (journal_err.insufficient_devices, j)
  else if fifo_free j.pin = 0 then some (journal_err.journal_pin_full, j)
  else if nr_unwritten_journal_entries j = JOURNAL_BUF_NR - 1 then
    some (journal_err.max_in_flight, j)
  else if j.cur_entry_sectors = 0 then none
  else
    let bidx := (journal_cur_seq j + 1) % JOURNAL_BUF_NR
    let b1 := { j.getBuf bidx with
        expires := (if journal_cur_seq j = j.flushed_seq_ondisk then j.jiffies
                    else j.last_flush_write) + j.flush_delay,
        u64s_reserved := j.entry_u64s_reserved,
        disk_sectors := j.cur_entry_sectors,
        sectors := journal_entry_open_sectors j }
    if journal_entry_u64s_budget j ≤ 0 then
      some (journal_err.journal_full, j.setBuf bidx b1)
    else if (journal_cur_seq j + 1) % JOURNAL_BUF_NR ≠ bidx then none
    else if j.reservations.cur_entry_offset = JOURNAL_ENTRY_ERROR_VAL then none
    else if journal_state_count j.reservations ((j.reservations.idx + 1) % 4) ≠ 0 then
      none
    else if (j.reservations.idx + 1) % 4 ≠ (journal_cur_seq j + 1) % JOURNAL_BUF_NR then
      none
    else
      some (journal_err.ok,
        { j with
            buf := (j.setBuf bidx
              { b1 with noflush := false, must_flush := false,
                        separate_flush := false, flush_time := 0,
                        data_seq := journal_cur_seq j + 1, data_u64s := 0,
                        data_last_seq := 0 }).buf,
            seq := j.seq + 1,
            pin := fifo_push_pin j.pin,
            cur_entry_u64s := (journal_entry_u64s_budget j).toNat,
            reservations := journal_state_inc
              { j.reservations with idx := (j.reservations.idx + 1) % 4,
                                    cur_entry_offset := 0 },
            res_get_blocked_start := 0 })

/-- Modelled from the spec: journal_res_get_fast of journal.h (not in
src): the lock-free fast path.  Fails (none) when the current entry
lacks room, the caller watermark is below the configured journal
watermark, or the slot refcount would overflow; otherwise bumps the
offset, takes a slot reference and fills the reservation with the
entry sequence and the old offset (a CHECK request reports success
without mutating anything). -/
def journal_res_get_fast (j : journal) (res : journal_res)
    (flags : journal_res_flags) : Option (journal × journal_res) :=
  let old := j.reservations
  if old.cur_entry_offset + res.u64s > j.cur_entry_u64s then none
  else if flags.watermark < j.watermark then none
  else
    let s := journal_state_inc
      { old with cur_entry_offset := old.cur_entry_offset + res.u64s }
    if journal_state_count s s.idx = 0 then none
    else if flags.check then some (j, res)
    else
      some ({ j with reservations := s },
            { res with ref := true, idx := old.idx, offset := old.cur_entry_offset,
                       seq := (j.getBuf old.idx).data_seq })

/-- journal.c lines 168-186, journal_entry_want_write: close the
current entry if no write is already in flight, else stamp its flush
deadline. -/
def journal_entry_want_write (j : journal) : Option (Bool × journal) :=
  let ret := !journal_entry_is_open j ||
             (journal_cur_seq j == journal_last_unwritten_seq j)
  if ret then
    (__journal_entry_close j JOURNAL_ENTRY_CLOSED_VAL).map (fun j1 => (true, j1))
  else if nr_unwritten_journal_entries j ≠ 0 then
    let b := journal_cur_buf j
    if b.flush_time = 0 then
      some (false, j.setBuf j.reservations.idx
              { b with flush_time := max 1 j.jiffies, expires := j.jiffies })
    else some (false, j)
  else some (false, j)

/-- journal.c lines 188-197, journal_entry_close (the locked wrapper). -/
def journal_entry_close (j : journal) : Option (Bool × journal) :=
  journal_entry_want_write j

/-- Modelled from the spec: bch2_journal_do_discards of
journal_reclaim.c (not in src): issue discards for every currently
eligible bucket, after which nothing is left to discard, and recompute
the space summary. -/
def bch2_journal_do_discards (j : journal) : journal :=
  bch2_journal_space_available { j with space_can_discard := false }

/-- Modelled from the spec: bch2_journal_reclaim of journal_reclaim.c
(not in src): the flush loop pops pin-list entries whose count reached
zero from the front of the ring and recomputes the space summary. -/
def bch2_journal_reclaim (j : journal) : journal :=
  bch2_journal_space_available (bch2_journal_reclaim_fast j)

/-- journal.c lines 370-391: the decision taken inside the lock by
__journal_res_get once the fast path failed twice: a caller watermark
below the journal's configured watermark is rejected with journal_full
without closing or opening anything; otherwise the current entry is
(possibly size-bumped for realloc,) closed and the next opened. -/
def journal_res_get_locked (j : journal) (flags : journal_res_flags) :
    Option (journal_err × journal) :=
  if flags.watermark < j.watermark then
    some (journal_err.journal_full, j)
  else
    let b := journal_cur_buf j
    let jw :=
      if journal_entry_is_open j ∧ b.buf_size / 512 < b.disk_sectors ∧
         b.buf_size < JOURNAL_ENTRY_SIZE_MAX then
        { j with buf_size_want := max j.buf_size_want (b.buf_size * 2) }
      else j
    match __journal_entry_close jw JOURNAL_ENTRY_CLOSED_VAL with
    | none => none
    | some j1 => journal_entry_open j1

/-- journal.c lines 344-449, __journal_res_get: one locked slow-path
attempt with its retry loop, driven by explicit fuel (fuel 0 = none).
The fatal-error dump on the stuck branch only raises the
filesystem-wide fatal flag. -/
def __journal_res_get : Nat → journal → journal_res → journal_res_flags →
    Option (Int × journal × journal_res)
  | 0, _, _, _ => none
  | fuel + 1, j, res, flags =>
    match journal_res_get_fast j res flags with
    | some (j1, res1) => some (0, j1, res1)
    | none =>
      if bch2_journal_error j then some (ERR_EROFS, j, res)
      else
        match journal_res_get_fast j res flags with
        | some (j1, res1) => some (0, j1, res1)
        | none =>
          match journal_res_get_locked j flags with
          | none => none
          | some (ret, j2) =>
            let j3 :=
              if ret ≠ journal_err.ok ∧ ret ≠ journal_err.insufficient_devices ∧
                 j2.res_get_blocked_start = 0 then
                { j2 with res_get_blocked_start := max 1 j2.jiffies }
              else j2
            let cd := j3.can_discard
            if ret = journal_err.ok then
              __journal_res_get fuel j3 res flags
            else
              let j4 :=
                if (ret = journal_err.journal_full ∨ ret = journal_err.journal_pin_full) ∧
                   ¬ cd ∧ nr_unwritten_journal_entries j3 = 0 ∧
                   flags.watermark = JOURNAL_WATERMARK_reserved then
                  { j3 with fatal := true }
                else j3
              if (ret = journal_err.journal_full ∨ ret = journal_err.journal_pin_full) ∧
                 ¬ flags.nonblock then
                if cd then
                  __journal_res_get fuel (bch2_journal_do_discards j4) res flags
                else
                  some (if ret = journal_err.insufficient_devices then ERR_EROFS
                        else ERR_EAGAIN,
                        bch2_journal_reclaim j4, res)
              else
                some (if ret = journal_err.insufficient_devices then ERR_EROFS
                      else ERR_EAGAIN, j4, res)

/-- journal.c lines 461-470, bch2_journal_res_get_slowpath: wait-loop
around __journal_res_get, retrying while it yields -EAGAIN unless the
caller asked for non-blocking semantics. -/
def bch2_journal_res_get_slowpath : Nat → journal → journal_res → journal_res_flags →
    Option (Int × journal × journal_res)
  | 0, _, _, _ => none
  | fuel + 1, j, res, flags =>
    match __journal_res_get (fuel + 1) j res flags with
    | none => none
    | some (ret, j1, res1) =>
      if ret ≠ ERR_EAGAIN ∨ flags.nonblock then some (ret, j1, res1)
      else bch2_journal_res_get_slowpath fuel j1 res1 flags

/-- Modelled from the spec: bch2_journal_res_get of journal.h (not in
src): set the requested size, try the fast path, else take the slow
path. -/
def bch2_journal_res_get (fuel : Nat) (j : journal) (res : journal_res)
    (u64s : Nat) (flags : journal_res_flags) :
    Option (Int × journal × journal_res) :=
  let res1 := { res with u64s := u64s }
  match journal_res_get_fast j res1 flags with
  | some (j1, res2) => some (0, j1, res2)
  | none => bch2_journal_res_get_slowpath fuel j res1 flags

/-- Modelled from the spec: bch2_journal_res_put of journal.h (not in
src): release a granted reservation, dropping the slot reference (the
no-op filler entries it writes are payload bytes, outside the model). -/
def bch2_journal_res_put (j : journal) (res : journal_res) : journal :=
  if res.ref then bch2_journal_buf_put j res.idx else j

/-- journal.c lines 55-67, journal_seq_to_buf: the buffer of an
unwritten sequence, none when the sequence is already on disk. -/
def journal_seq_to_buf (j : journal) (seq : Nat) : Option journal_buf :=
  if journal_seq_unwritten j seq then some (j.getBuf seq) else none

/-- Modelled from the spec: jset_u64s of journal.h (not in src): u64s
of a sub-entry including its 16-byte header. -/
def jset_u64s (u : Nat) : Nat := u + 2

def flush_want_write (j : journal) (seq : Nat) : Option journal :=
  if seq = journal_cur_seq j then
    (journal_entry_want_write j).map (fun p => p.2)
  else some j

/-- journal.c lines 574-621: the recheck_need_open loop of
bch2_journal_flush_seq_async: skip past noflush buffers, opening a
fresh entry if the search runs past the current sequence; mark the
chosen buffer must_flush and register the waiter on it. -/
def flush_recheck : Nat → Nat → journal → Nat → Option Nat → Option (Int × journal)
  | 0, _, _, _, _ => none
  | fuel + 1, rfuel, j, seq, parent =>
    if seq > journal_cur_seq j then
      match (if journal_entry_is_open j then
               __journal_entry_close j JOURNAL_ENTRY_CLOSED_VAL
             else some j) with
      | none => none
      | some j1 =>
        match bch2_journal_res_get rfuel j1 default (jset_u64s 0)
                { watermark := 0, nonblock := false, check := false } with
        | none => none
        | some (ret, j2, res) =>
          if ret ≠ 0 then some (ret, j2)
          else
            let s := res.seq
            let b0 := j2.getBuf s
            let b1 := { b0 with must_flush := true }
            let b2 := if b1.flush_time = 0 then
                        { b1 with flush_time := max 1 j2.jiffies, expires := j2.jiffies }
                      else b1
            let b3 := match parent with
                      | some p => { b2 with waiters := b2.waiters ++ [p] }
                      | none => b2
            let j3 := j2.setBuf s b3
            let j4 := bch2_journal_res_put j3 res
            match flush_want_write j4 s with
            | none => none
            | some j5 => some (0, j5)
    else
      match journal_seq_to_buf j seq with
      | none => none
      | some b =>
        if b.noflush then flush_recheck fuel rfuel j (seq + 1) parent
        else
          let b1 := { b with must_flush := true }
          let b2 := match parent with
                    | some p => { b1 with waiters := b1.waiters ++ [p] }
                    | none => b1
          let j1 := j.setBuf seq b2
          match flush_want_write j1 seq with
          | none => none
          | some j2 => some (0, j2)

/-- journal.c lines 544-625, bch2_journal_flush_seq_async: wait for a
sequence to become durable, triggering the write.  Returns 1 when the
sequence is already durably flushed, 0 when a waiter was queued (or the
request ran past the current sequence), -EIO past a halted sequence. -/
def bch2_journal_flush_seq_async (fuel rfuel : Nat) (j : journal) (seq : Nat)
    (parent : Option Nat) : Option (Int × journal) :=
  if seq ≤ j.flushed_seq_ondisk then some (1, j)
  else if seq > journal_cur_seq j then some (0, j)
  else if j.err_seq ≠ 0 ∧ seq ≥ j.err_seq then some ( ERR_EIO, j)
  else if seq ≤ j.flushed_seq_ondisk then some (1, j)
  else flush_recheck fuel rfuel j (max seq (journal_last_unwritten_seq j)) parent

/-- Per-device journal state (struct journal_device): the circular
bucket ring, the parallel bucket_seq array and the four ring indices. -/
structure journal_device where
  nr : Nat
  buckets : List Nat
  bucket_seq : List Nat
  discard_idx : Nat
  dirty_idx_ondisk : Nat
  dirty_idx : Nat
  cur_idx : Nat
deriving DecidableEq, Repr, Inhabited

/-- journal.c lines 842-861: insert one newly allocated bucket at the
discard pointer (or at the end when discard_idx is 0), bumping the ring
indices at or past the insertion point, modulo the grown ring size. -/
def journal_bucket_insert (ja : journal_device) (b : Nat) : journal_device :=
  let pos := if ja.discard_idx ≠ 0 then ja.discard_idx else ja.nr
  let nr1 := ja.nr + 1
  { ja with
    buckets := ja.buckets.insertIdx pos b,
    bucket_seq := ja.bucket_seq.insertIdx pos 0,
    nr := nr1,
    discard_idx :=
      if pos ≤ ja.discard_idx then (ja.discard_idx + 1) % nr1 else ja.discard_idx,
    dirty_idx_ondisk :=
      if pos ≤ ja.dirty_idx_ondisk then (ja.dirty_idx_ondisk + 1) % nr1
      else ja.dirty_idx_ondisk,
    dirty_idx :=
      if pos ≤ ja.dirty_idx then (ja.dirty_idx + 1) % nr1 else ja.dirty_idx,
    cur_idx :=
      if pos ≤ ja.cur_idx then (ja.cur_idx + 1) % nr1 else ja.cur_idx }

/-- journal.c lines 778-911, __bch2_set_nr_journal_buckets: grow the
ring to nr buckets.  The allocator is modelled by the list bu of
bucket numbers it can still hand out, the closure argument by cl, and
the superblock write (bch2_journal_buckets_to_sb, journal_sb.c, not in
src) by its return code sb_ret; memory allocation failures and the
metadata-marking transaction are not modelled.  When the superblock
write fails every in-memory field is restored from the values saved on
entry and the error is returned. -/
def __bch2_set_nr_journal_buckets (ja : journal_device) (nr : Nat)
    (bu : List Nat) (cl : Bool) (sb_ret : Int) : Int × journal_device :=
  let nr_want := nr - ja.nr
  let old_nr := ja.nr
  let old_discard_idx := ja.discard_idx
  let old_dirty_idx_ondisk := ja.dirty_idx_ondisk
  let old_dirty_idx := ja.dirty_idx
  let old_cur_idx := ja.cur_idx
  let old_buckets := ja.buckets
  let old_bucket_seq := ja.bucket_seq
  let nr_got := min bu.length nr_want
  if nr_got = 0 then
    (if cl then ERR_EAGAIN else ERR_ENOSPC, ja)
  else
    let ja1 := (bu.take nr_got).foldl journal_bucket_insert ja
    if sb_ret ≠ 0 then
      (sb_ret,
       { ja1 with buckets := old_buckets, bucket_seq := old_bucket_seq,
                  nr := old_nr, discard_idx := old_discard_idx,
                  dirty_idx_ondisk := old_dirty_idx_ondisk,
                  dirty_idx := old_dirty_idx, cur_idx := old_cur_idx })
    else (0, ja1)

/-- One iteration's environment for the grow loop of
bch2_set_nr_journal_buckets: whether the disk reservation succeeds,
the buckets the allocator yields, and the superblock write result. -/
structure grow_env where
  disk_res_ok : Bool
  bu : List Nat
  sb_ret : Int
deriving DecidableEq, Repr, Inhabited

/-- journal.c lines 931-959: the while loop of
bch2_set_nr_journal_buckets, with the Bool recording whether
bch2_write_super ran.  none models running out of modelled
environment while the loop would continue. -/
def set_nr_buckets_loop : List grow_env → journal_device → Nat → Int → Bool →
    Option (Int × journal_device × Bool)
  | envs, ja, nr, ret, wrote =>
    if ja.nr = nr ∨ (ret ≠ 0 ∧ ret ≠ ERR_EAGAIN) then some (ret, ja, wrote)
    else
      match envs with
      | [] => none
      | env :: rest =>
        if ¬ env.disk_res_ok then some (ERR_ENOSPC, ja, wrote)
        else
          let current_nr := ja.nr
          let r := __bch2_set_nr_journal_buckets ja nr env.bu true env.sb_ret
          set_nr_buckets_loop rest r.2 nr r.1 (wrote ∨ r.2.nr ≠ current_nr)

/-- journal.c lines 917-962, bch2_set_nr_journal_buckets: the public
grow interface.  Requests below the current ring size return success
immediately. -/
def bch2_set_nr_journal_buckets (ja : journal_device) (nr : Nat)
    (envs : List grow_env) : Option (Int × journal_device × Bool) :=
  if nr < ja.nr then some (0, ja, false)
  else set_nr_buckets_loop envs ja nr 0 false

/-- Modelled from the spec: clamp_t of the kernel headers (not in
src): clamp val into [lo, hi], the upper bound winning. -/
def clamp_t (val lo hi : Nat) : Nat := min (max val lo) hi

/-- Modelled from the spec: BCH_JOURNAL_BUCKETS_MIN (journal.h, not in
src), the minimum-constant lower clamp of the default journal size;
concrete value taken as 8. -/
def BCH_JOURNAL_BUCKETS_MIN : Nat := 8

/-- journal.c lines 964-983: the bucket-count computation of
bch2_dev_journal_alloc.  nbuckets is the device's u64 bucket count;
the quotient is assigned to a 32-bit unsigned before clamping, hence
the mod 2^32. -/
def bch2_dev_journal_alloc_nr (nbuckets bucket_size : Nat) : Nat :=
  let nr := (nbuckets >>> 7) % 2 ^ 32
  clamp_t nr BCH_JOURNAL_BUCKETS_MIN (min (2 ^ 13) (2 ^ 24 / bucket_size))

/-- Claim C8's formula as the spec words it: total bucket count divided
by 128, clamped below to BCH_JOURNAL_BUCKETS_MIN and above to
min(8192, (1 << 24) / bucket_size), in exact unsigned arithmetic. -/
def dev_journal_alloc_nr_spec (nbuckets bucket_size : Nat) : Nat :=
  min (max (nbuckets / 128) BCH_JOURNAL_BUCKETS_MIN)
      (min 8192 (2 ^ 24 / bucket_size))

/-! Basic frame lemmas about the state helpers. -/

theorem seq_setBuf (j : journal) (i : Nat) (b : journal_buf) :
    (j.setBuf i b).seq = j.seq := rfl

theorem reservations_setBuf (j : journal) (i : Nat) (b : journal_buf) :
    (j.setBuf i b).reservations = j.reservations := rfl

theorem buf_length_setBuf (j : journal) (i : Nat) (b : journal_buf) :
    (j.setBuf i b).buf.length = j.buf.length := by
  simp [journal.setBuf]

theorem getBuf_setBuf_same (j : journal) (i : Nat) (b : journal_buf)
    (h : j.buf.length = JOURNAL_BUF_NR) : (j.setBuf i b).getBuf i = b := by
  have hi : i % JOURNAL_BUF_NR < j.buf.length := by
    rw [h]; exact Nat.mod_lt _ (by decide)
  simp [journal.setBuf, journal.getBuf, List.getD_eq_getElem?_getD,
        List.getElem?_set_eq_of_lt _ hi]

theorem getBuf_setBuf_ne (j : journal) (i k : Nat) (b : journal_buf)
    (h : i % JOURNAL_BUF_NR ≠ k % JOURNAL_BUF_NR) :
    (j.setBuf i b).getBuf k = j.getBuf k := by
  simp [journal.setBuf, journal.getBuf, List.getD_eq_getElem?_getD,
        List.getElem?_set_ne h]

theorem seq_pin_put (j : journal) (s : Nat) :
    (__bch2_journal_pin_put j s).seq = j.seq := by
  simp only [__bch2_journal_pin_put, bch2_journal_reclaim_fast]
  split <;> rfl

theorem reservations_pin_put (j : journal) (s : Nat) :
    (__bch2_journal_pin_put j s).reservations = j.reservations := by
  simp only [__bch2_journal_pin_put, bch2_journal_reclaim_fast]
  split <;> rfl

theorem buf_pin_put (j : journal) (s : Nat) :
    (__bch2_journal_pin_put j s).buf = j.buf := by
  simp only [__bch2_journal_pin_put, bch2_journal_reclaim_fast]
  split <;> rfl

theorem cur_u64s_pin_put (j : journal) (s : Nat) :
    (__bch2_journal_pin_put j s).cur_entry_u64s = j.cur_entry_u64s := by
  simp only [__bch2_journal_pin_put, bch2_journal_reclaim_fast]
  split <;> rfl

theorem idx_state_dec (s : journal_res_state) (i : Nat) :
    (journal_state_dec s i).idx = s.idx := by
  simp only [journal_state_dec]
  split <;> rfl

theorem offset_state_dec (s : journal_res_state) (i : Nat) :
    (journal_state_dec s i).cur_entry_offset = s.cur_entry_offset := by
  simp only [journal_state_dec]
  split <;> rfl

theorem idx_state_inc (s : journal_res_state) :
    (journal_state_inc s).idx = s.idx := by
  simp only [journal_state_inc]
  split <;> rfl

theorem offset_state_inc (s : journal_res_state) :
    (journal_state_inc s).cur_entry_offset = s.cur_entry_offset := by
  simp only [journal_state_inc]
  split <;> rfl

theorem unwritten_idx_state_inc (s : journal_res_state) :
    (journal_state_inc s).unwritten_idx = s.unwritten_idx := by
  simp only [journal_state_inc]
  split <;> rfl

theorem getBuf_congr (j : journal) {k m : Nat}
    (h : k % JOURNAL_BUF_NR = m % JOURNAL_BUF_NR) : j.getBuf k = j.getBuf m := by
  simp [journal.getBuf, h]

theorem pin_put_eq (j : journal) (s : Nat) :
    __bch2_journal_pin_put j s = { j with pin := (__bch2_journal_pin_put j s).pin } := by
  simp only [__bch2_journal_pin_put, bch2_journal_reclaim_fast]
  split <;> rfl

/-- Frame lemma for __journal_entry_close: the fields it never writes. -/
theorem close_frame {j j1 : journal} {cv : Nat}
    (h : __journal_entry_close j cv = some j1) :
    j1.seq = j.seq ∧ j1.err_seq = j.err_seq ∧
    j1.cur_entry_u64s = j.cur_entry_u64s ∧
    j1.buf.length = j.buf.length ∧
    j1.reservations.idx = j.reservations.idx ∧
    j1.seq_ondisk = j.seq_ondisk ∧
    j1.flushed_seq_ondisk = j.flushed_seq_ondisk ∧
    j1.blocked = j.blocked ∧
    j1.watermark = j.watermark ∧
    j1.jiffies = j.jiffies := by
  simp only [__journal_entry_close] at h
  split at h
  · cases h
  split at h
  · cases h; exact ⟨rfl, rfl, rfl, rfl, rfl, rfl, rfl, rfl, rfl, rfl⟩
  split at h
  · cases h; exact ⟨rfl, rfl, rfl, rfl, rfl, rfl, rfl, rfl, rfl, rfl⟩
  split at h
  · cases h
  split at h
  · cases h
  cases h
  rw [pin_put_eq]
  refine ⟨?_, ?_, ?_, ?_, ?_, ?_, ?_, ?_, ?_, ?_⟩ <;>
    simp [bch2_journal_buf_put, bch2_journal_space_available,
          journal.setBuf, idx_state_dec]

/-- Either __journal_entry_close was a no-op on an already ERROR or
already closed-with-the-same-value state, or it wrote the requested
sentinel into the offset. -/
theorem close_offset_cases {j j1 : journal} {cv : Nat}
    (h : __journal_entry_close j cv = some j1) :
    (j1 = j ∧ (j.reservations.cur_entry_offset = JOURNAL_ENTRY_ERROR_VAL ∨
               j.reservations.cur_entry_offset = cv)) ∨
    j1.reservations.cur_entry_offset = cv := by
  simp only [__journal_entry_close] at h
  split at h
  · cases h
  split at h
  · rename_i hc
    cases h
    exact Or.inl ⟨rfl, hc⟩
  split at h
  · cases h; exact Or.inr rfl
  split at h
  · cases h
  split at h
  · cases h
  cases h
  rw [pin_put_eq]
  refine Or.inr ?_
  simp [bch2_journal_buf_put, bch2_journal_space_available,
        journal.setBuf, offset_state_dec]

/-- Closing a state whose offset is already ERROR, or already equals
the requested sentinel, is a complete no-op. -/
theorem close_noop {j : journal} {cv : Nat}
    (hcv : cv = JOURNAL_ENTRY_CLOSED_VAL ∨ cv = JOURNAL_ENTRY_ERROR_VAL)
    (hoff : j.reservations.cur_entry_offset = JOURNAL_ENTRY_ERROR_VAL ∨
            j.reservations.cur_entry_offset = cv) :
    __journal_entry_close j cv = some j := by
  simp only [__journal_entry_close]
  rw [if_neg, if_pos hoff]
  rcases hcv with h | h <;> simp [h]

/-- __journal_entry_close never touches the must_flush / noflush /
waiters / flush_time / expires fields of any buffer slot. -/
theorem close_buf_flags {j j1 : journal} {cv : Nat}
    (h : __journal_entry_close j cv = some j1)
    (hlen : j.buf.length = JOURNAL_BUF_NR) (k : Nat) :
    (j1.getBuf k).must_flush = (j.getBuf k).must_flush ∧
    (j1.getBuf k).noflush = (j.getBuf k).noflush ∧
    (j1.getBuf k).waiters = (j.getBuf k).waiters ∧
    (j1.getBuf k).flush_time = (j.getBuf k).flush_time ∧
    (j1.getBuf k).expires = (j.getBuf k).expires := by
  simp only [__journal_entry_close] at h
  split at h
  · cases h
  split at h
  · cases h; exact ⟨rfl, rfl, rfl, rfl, rfl⟩
  split at h
  · cases h; exact ⟨rfl, rfl, rfl, rfl, rfl⟩
  split at h
  · cases h
  split at h
  · cases h
  cases h
  rw [pin_put_eq]
  have hbuf : ∀ m,
      ((bch2_journal_buf_put
        (bch2_journal_space_available
          { (journal.setBuf { j with
              reservations :=
                { j.reservations with cur_entry_offset := cv } } j.reservations.idx
              { j.getBuf j.reservations.idx with
                  data_u64s := j.reservations.cur_entry_offset,
                  sectors := vstruct_close_sectors j.reservations.cur_entry_offset
                    (j.getBuf j.reservations.idx).u64s_reserved j.block_bits,
                  last_seq := journal_last_seq j,
                  data_last_seq := journal_last_seq j }) with
              pin := (__bch2_journal_pin_put
                (journal.setBuf { j with
                  reservations :=
                    { j.reservations with cur_entry_offset := cv } } j.reservations.idx
                  { j.getBuf j.reservations.idx with
                      data_u64s := j.reservations.cur_entry_offset,
                      sectors := vstruct_close_sectors j.reservations.cur_entry_offset
                        (j.getBuf j.reservations.idx).u64s_reserved j.block_bits,
                      last_seq := journal_last_seq j,
                      data_last_seq := journal_last_seq j })
                (j.getBuf j.reservations.idx).data_seq).pin })
        j.reservations.idx).getBuf m) =
      ((journal.setBuf j j.reservations.idx
        { j.getBuf j.reservations.idx with
            data_u64s := j.reservations.cur_entry_offset,
            sectors := vstruct_close_sectors j.reservations.cur_entry_offset
              (j.getBuf j.reservations.idx).u64s_reserved j.block_bits,
            last_seq := journal_last_seq j,
            data_last_seq := journal_last_seq j }).getBuf m) := by
    intro m
    simp [bch2_journal_buf_put, bch2_journal_space_available, journal.getBuf,
          journal.setBuf]
  rw [hbuf]
  by_cases hk : k % JOURNAL_BUF_NR = j.reservations.idx % JOURNAL_BUF_NR
  · rw [getBuf_congr _ hk, getBuf_setBuf_same _ _ _ hlen,
        getBuf_congr j hk]
    exact ⟨rfl, rfl, rfl, rfl, rfl⟩
  · rw [getBuf_setBuf_ne _ _ _ _ (fun hx => hk hx.symm)]
    exact ⟨rfl, rfl, rfl, rfl, rfl⟩

/-- journal_entry_open refuses (BUG) to run while an entry is open:
opening can only happen from a closed or errored reservation state. -/
theorem entry_open_requires_closed {j : journal}
    (h : journal_entry_is_open j = true) : journal_entry_open j = none := by
  simp only [journal_entry_open, h]
  simp

/-- Characterization of a successful journal_entry_open: it can only
run on a closed, non-errored state whose incoming slot has a zero
outstanding-reservation count; it bumps the sequence by exactly one,
opens the entry at offset 0 on the next slot (which is the new
sequence mod the pool size), pushes one pin, installs a fresh buffer
holding the new sequence with the flush flags cleared, keeps the entry
size budget strictly between 0 and the CLOSED sentinel, and leaves the
other journal fields alone. -/
theorem open_ok_spec {j j1 : journal}
    (hlen : j.buf.length = JOURNAL_BUF_NR)
    (h : journal_entry_open j = some (journal_err.ok, j1)) :
    journal_entry_is_open j = false ∧
    j.reservations.cur_entry_offset ≠ JOURNAL_ENTRY_ERROR_VAL ∧
    journal_state_count j.reservations ((j.reservations.idx + 1) % 4) = 0 ∧
    j1.seq = j.seq + 1 ∧
    j1.reservations.cur_entry_offset = 0 ∧
    j1.reservations.idx = (j.reservations.idx + 1) % 4 ∧
    j1.reservations.idx % JOURNAL_BUF_NR = j1.seq % JOURNAL_BUF_NR ∧
    0 < j1.cur_entry_u64s ∧
    j1.cur_entry_u64s < JOURNAL_ENTRY_CLOSED_VAL ∧
    j1.buf.length = j.buf.length ∧
    (j1.getBuf j1.seq).data_seq = j1.seq ∧
    (j1.getBuf j1.seq).noflush = false ∧
    (j1.getBuf j1.seq).must_flush = false ∧
    j1.err_seq = j.err_seq ∧ j1.seq_ondisk = j.seq_ondisk ∧
    j1.flushed_seq_ondisk = j.flushed_seq_ondisk ∧
    j1.watermark = j.watermark ∧ j1.blocked = j.blocked ∧
    j1.pin.front = j.pin.front := by
  simp only [journal_entry_open] at h
  by_cases h1 : journal_entry_is_open j = true
  · rw [if_pos h1] at h; cases h
  rw [if_neg h1] at h
  by_cases h2 : j.blocked ≠ 0
  · rw [if_pos h2] at h
    injection h with h; injection h with ha hb; exact journal_err.noConfusion ha
  rw [if_neg h2] at h
  by_cases h3 : j.cur_entry_err ≠ journal_err.ok
  · rw [if_pos h3] at h
    injection h with h; injection h with ha hb; exact absurd ha h3
  rw [if_neg h3] at h
  by_cases h4 : bch2_journal_error j = true
  · rw [if_pos h4] at h
    injection h with h; injection h with ha hb; exact journal_err.noConfusion ha
  rw [if_neg h4] at h
  by_cases h5 : fifo_free j.pin = 0
  · rw [if_pos h5] at h
    injection h with h; injection h with ha hb; exact journal_err.noConfusion ha
  rw [if_neg h5] at h
  by_cases h6 : nr_unwritten_journal_entries j = JOURNAL_BUF_NR - 1
  · rw [if_pos h6] at h
    injection h with h; injection h with ha hb; exact journal_err.noConfusion ha
  rw [if_neg h6] at h
  by_cases h7 : j.cur_entry_sectors = 0
  · rw [if_pos h7] at h; cases h
  rw [if_neg h7] at h
  by_cases h8 : journal_entry_u64s_budget j ≤ 0
  · rw [if_pos h8] at h
    injection h with h; injection h with ha hb; exact journal_err.noConfusion ha
  rw [if_neg h8] at h
  rw [if_neg (fun hx => hx rfl)] at h
  by_cases h10 : j.reservations.cur_entry_offset = JOURNAL_ENTRY_ERROR_VAL
  · rw [if_pos h10] at h; cases h
  rw [if_neg h10] at h
  by_cases h11 : journal_state_count j.reservations ((j.reservations.idx + 1) % 4) ≠ 0
  · rw [if_pos h11] at h; cases h
  rw [if_neg h11] at h
  by_cases h12 : (j.reservations.idx + 1) % 4 ≠
      (journal_cur_seq j + 1) % JOURNAL_BUF_NR
  · rw [if_pos h12] at h; cases h
  rw [if_neg h12] at h
  injection h with h
  injection h with ha hb
  subst hb
  have hbudget_pos : 0 < journal_entry_u64s_budget j := lt_of_not_le h8
  have hbudget_hi : journal_entry_u64s_budget j ≤ (JOURNAL_ENTRY_CLOSED_VAL : Int) - 1 :=
    min_le_right _ _
  have hidx : (j.reservations.idx + 1) % 4 = (journal_cur_seq j + 1) % JOURNAL_BUF_NR :=
    not_ne_iff.mp h12
  have hsb : ({ j with
        buf := (j.setBuf ((journal_cur_seq j + 1) % JOURNAL_BUF_NR)
          { j.getBuf ((journal_cur_seq j + 1) % JOURNAL_BUF_NR) with
              expires := (if journal_cur_seq j = j.flushed_seq_ondisk then j.jiffies
                          else j.last_flush_write) + j.flush_delay,
              u64s_reserved := j.entry_u64s_reserved,
              disk_sectors := j.cur_entry_sectors,
              sectors := journal_entry_open_sectors j,
              noflush := false, must_flush := false,
              separate_flush := false, flush_time := 0,
              data_seq := journal_cur_seq j + 1, data_u64s := 0,
              data_last_seq := 0 }).buf,
        seq := j.seq + 1,
        pin := fifo_push_pin j.pin,
        cur_entry_u64s := (journal_entry_u64s_budget j).toNat,
        reservations := journal_state_inc
          { j.reservations with idx := (j.reservations.idx + 1) % 4,
                                cur_entry_offset := 0 },
        res_get_blocked_start := 0 } : journal).getBuf (j.seq + 1) =
      { j.getBuf ((journal_cur_seq j + 1) % JOURNAL_BUF_NR) with
          expires := (if journal_cur_seq j = j.flushed_seq_ondisk then j.jiffies
                      else j.last_flush_write) + j.flush_delay,
          u64s_reserved := j.entry_u64s_reserved,
          disk_sectors := j.cur_entry_sectors,
          sectors := journal_entry_open_sectors j,
          noflush := false, must_flush := false,
          separate_flush := false, flush_time := 0,
          data_seq := journal_cur_seq j + 1, data_u64s := 0,
          data_last_seq := 0 } := by
      have := getBuf_setBuf_same j ((journal_cur_seq j + 1) % JOURNAL_BUF_NR)
        ({ j.getBuf ((journal_cur_seq j + 1) % JOURNAL_BUF_NR) with
            expires := (if journal_cur_seq j = j.flushed_seq_ondisk then j.jiffies
                        else j.last_flush_write) + j.flush_delay,
            u64s_reserved := j.entry_u64s_reserved,
            disk_sectors := j.cur_entry_sectors,
            sectors := journal_entry_open_sectors j,
            noflush := false, must_flush := false,
            separate_flush := false, flush_time := 0,
            data_seq := journal_cur_seq j + 1, data_u64s := 0,
            data_last_seq := 0 }) hlen
      simp only [journal.getBuf, journal.setBuf] at this ⊢
      have hmm : (j.seq + 1) % JOURNAL_BUF_NR =
          (journal_cur_seq j + 1) % JOURNAL_BUF_NR % JOURNAL_BUF_NR := by
        simp only [journal_cur_seq, JOURNAL_BUF_NR]
        omega
      rw [hmm]
      exact this
  refine ⟨by simpa using h1, h10, by simpa using h11, rfl, ?_, ?_, ?_, ?_, ?_, ?_,
      ?_, ?_, ?_, rfl, rfl, rfl, rfl, rfl, rfl⟩
  · simp [offset_state_inc]
  · simp [idx_state_inc]
  · simp only [idx_state_inc]
    rw [hidx]
    simp only [journal_cur_seq, JOURNAL_BUF_NR]
    omega
  · simp only []
    omega
  · simp only []
    omega
  · simp [buf_length_setBuf, journal.setBuf]
  · rw [hsb]
    rfl
  · rw [hsb]
  · rw [hsb]

/-- Characterization of a failing journal_entry_open: the reservation
word, sequence counter, pins and all bookkeeping are unchanged, and
every buffer slot keeps its data_seq and flush flags (the journal_full
branch only resizes the next slot's budget fields). -/
theorem open_err_spec {j j1 : journal} {e : journal_err}
    (hlen : j.buf.length = JOURNAL_BUF_NR)
    (h : journal_entry_open j = some (e, j1)) (he : e ≠ journal_err.ok) :
    j1.reservations = j.reservations ∧ j1.seq = j.seq ∧
    j1.err_seq = j.err_seq ∧ j1.cur_entry_u64s = j.cur_entry_u64s ∧
    j1.buf.length = j.buf.length ∧ j1.pin = j.pin ∧
    j1.seq_ondisk = j.seq_ondisk ∧ j1.flushed_seq_ondisk = j.flushed_seq_ondisk ∧
    j1.watermark = j.watermark ∧ j1.blocked = j.blocked ∧
    (∀ k, (j1.getBuf k).data_seq = (j.getBuf k).data_seq ∧
          (j1.getBuf k).noflush = (j.getBuf k).noflush ∧
          (j1.getBuf k).must_flush = (j.getBuf k).must_flush ∧
          (j1.getBuf k).waiters = (j.getBuf k).waiters) := by
  simp only [journal_entry_open] at h
  by_cases h1 : journal_entry_is_open j = true
  · rw [if_pos h1] at h; cases h
  rw [if_neg h1] at h
  by_cases h2 : j.blocked ≠ 0
  · rw [if_pos h2] at h
    injection h with h; injection h with ha hb; subst hb
    exact ⟨rfl, rfl, rfl, rfl, rfl, rfl, rfl, rfl, rfl, rfl, fun k => ⟨rfl, rfl, rfl, rfl⟩⟩
  rw [if_neg h2] at h
  by_cases h3 : j.cur_entry_err ≠ journal_err.ok
  · rw [if_pos h3] at h
    injection h with h; injection h with ha hb; subst hb
    exact ⟨rfl, rfl, rfl, rfl, rfl, rfl, rfl, rfl, rfl, rfl, fun k => ⟨rfl, rfl, rfl, rfl⟩⟩
  rw [if_neg h3] at h
  by_cases h4 : bch2_journal_error j = true
  · rw [if_pos h4] at h
    injection h with h; injection h with ha hb; subst hb
    exact ⟨rfl, rfl, rfl, rfl, rfl, rfl, rfl, rfl, rfl, rfl, fun k => ⟨rfl, rfl, rfl, rfl⟩⟩
  rw [if_neg h4] at h
  by_cases h5 : fifo_free j.pin = 0
  · rw [if_pos h5] at h
    injection h with h; injection h with ha hb; subst hb
    exact ⟨rfl, rfl, rfl, rfl, rfl, rfl, rfl, rfl, rfl, rfl, fun k => ⟨rfl, rfl, rfl, rfl⟩⟩
  rw [if_neg h5] at h
  by_cases h6 : nr_unwritten_journal_entries j = JOURNAL_BUF_NR - 1
  · rw [if_pos h6] at h
    injection h with h; injection h with ha hb; subst hb
    exact ⟨rfl, rfl, rfl, rfl, rfl, rfl, rfl, rfl, rfl, rfl, fun k => ⟨rfl, rfl, rfl, rfl⟩⟩
  rw [if_neg h6] at h
  by_cases h7 : j.cur_entry_sectors = 0
  · rw [if_pos h7] at h; cases h
  rw [if_neg h7] at h
  by_cases h8 : journal_entry_u64s_budget j ≤ 0
  · rw [if_pos h8] at h
    injection h with h; injection h with ha hb; subst hb
    refine ⟨rfl, rfl, rfl, rfl, by simp [journal.setBuf], rfl, rfl, rfl, rfl, rfl, ?_⟩
    intro k
    by_cases hk : ((journal_cur_seq j + 1) % JOURNAL_BUF_NR) % JOURNAL_BUF_NR =
        k % JOURNAL_BUF_NR
    · have hg := getBuf_congr j (k := k)
        (m := (journal_cur_seq j + 1) % JOURNAL_BUF_NR) (by omega)
      have hs := getBuf_setBuf_same j ((journal_cur_seq j + 1) % JOURNAL_BUF_NR)
        ({ j.getBuf ((journal_cur_seq j + 1) % JOURNAL_BUF_NR) with
            expires := (if journal_cur_seq j = j.flushed_seq_ondisk then j.jiffies
                        else j.last_flush_write) + j.flush_delay,
            u64s_reserved := j.entry_u64s_reserved,
            disk_sectors := j.cur_entry_sectors,
            sectors := journal_entry_open_sectors j }) hlen
      have hg2 : (j.setBuf ((journal_cur_seq j + 1) % JOURNAL_BUF_NR)
          { j.getBuf ((journal_cur_seq j + 1) % JOURNAL_BUF_NR) with
              expires := (if journal_cur_seq j = j.flushed_seq_ondisk then j.jiffies
                          else j.last_flush_write) + j.flush_delay,
              u64s_reserved := j.entry_u64s_reserved,
              disk_sectors := j.cur_entry_sectors,
              sectors := journal_entry_open_sectors j }).getBuf k =
          (j.setBuf ((journal_cur_seq j + 1) % JOURNAL_BUF_NR)
          { j.getBuf ((journal_cur_seq j + 1) % JOURNAL_BUF_NR) with
              expires := (if journal_cur_seq j = j.flushed_seq_ondisk then j.jiffies
                          else j.last_flush_write) + j.flush_delay,
              u64s_reserved := j.entry_u64s_reserved,
              disk_sectors := j.cur_entry_sectors,
              sectors := journal_entry_open_sectors j }).getBuf
            ((journal_cur_seq j + 1) % JOURNAL_BUF_NR) :=
        getBuf_congr _ (by omega)
      rw [hg, hg2, hs]
      exact ⟨rfl, rfl, rfl, rfl⟩
    · rw [getBuf_setBuf_ne _ _ _ _ (by omega)]
      exact ⟨rfl, rfl, rfl, rfl⟩
  rw [if_neg h8] at h
  rw [if_neg (fun hx => hx rfl)] at h
  by_cases h10 : j.reservations.cur_entry_offset = JOURNAL_ENTRY_ERROR_VAL
  · rw [if_pos h10] at h; cases h
  rw [if_neg h10] at h
  by_cases h11 : journal_state_count j.reservations ((j.reservations.idx + 1) % 4) ≠ 0
  · rw [if_pos h11] at h; cases h
  rw [if_neg h11] at h
  by_cases h12 : (j.reservations.idx + 1) % 4 ≠
      (journal_cur_seq j + 1) % JOURNAL_BUF_NR
  · rw [if_pos h12] at h; cases h
  rw [if_neg h12] at h
  injection h with h
  injection h with ha hb
  exact absurd ha.symm he

/-- A successful fast-path reservation (CHECK clear) bumps the offset
by the requested size, leaves buffers, pins, sequence and index alone,
and hands out the current open buffer's sequence number. -/
theorem res_fast_ok_spec {j j1 : journal} {res res1 : journal_res}
    {flags : journal_res_flags} (hchk : flags.check = false)
    (h : journal_res_get_fast j res flags = some (j1, res1)) :
    j.reservations.cur_entry_offset + res.u64s ≤ j.cur_entry_u64s ∧
    j1.seq = j.seq ∧ j1.buf = j.buf ∧
    j1.reservations.cur_entry_offset = j.reservations.cur_entry_offset + res.u64s ∧
    j1.reservations.idx = j.reservations.idx ∧
    j1.cur_entry_u64s = j.cur_entry_u64s ∧
    j1.err_seq = j.err_seq ∧ j1.pin = j.pin ∧
    j1.seq_ondisk = j.seq_ondisk ∧ j1.flushed_seq_ondisk = j.flushed_seq_ondisk ∧
    j1.watermark = j.watermark ∧ j1.blocked = j.blocked ∧
    res1.seq = (j.getBuf j.reservations.idx).data_seq ∧
    res1.u64s = res.u64s := by
  simp only [journal_res_get_fast] at h
  by_cases hg1 : j.reservations.cur_entry_offset + res.u64s > j.cur_entry_u64s
  · rw [if_pos hg1] at h; cases h
  rw [if_neg hg1] at h
  by_cases hg2 : flags.watermark < j.watermark
  · rw [if_pos hg2] at h; cases h
  rw [if_neg hg2] at h
  by_cases hg3 : journal_state_count
      (journal_state_inc
        { j.reservations with
            cur_entry_offset := j.reservations.cur_entry_offset + res.u64s })
      (journal_state_inc
        { j.reservations with
            cur_entry_offset := j.reservations.cur_entry_offset + res.u64s }).idx = 0
  · rw [if_pos hg3] at h; cases h
  rw [if_neg hg3] at h
  rw [hchk] at h
  simp only [Bool.false_eq_true, if_false] at h
  injection h with h
  injection h with ha hb
  subst ha; subst hb
  refine ⟨le_of_not_lt hg1, rfl, rfl, ?_, ?_, rfl, rfl, rfl, rfl, rfl, rfl, rfl,
      rfl, rfl⟩
  · simp [offset_state_inc]
  · simp [idx_state_inc]

/-- The fast path always fails while no entry is open, as long as the
entry size budget is below the CLOSED sentinel. -/
theorem res_fast_fails_closed {j : journal} {res : journal_res}
    {flags : journal_res_flags}
    (hu : j.cur_entry_u64s < JOURNAL_ENTRY_CLOSED_VAL)
    (hclosed : journal_entry_is_open j = false) :
    journal_res_get_fast j res flags = none := by
  have hoff : JOURNAL_ENTRY_CLOSED_VAL ≤ j.reservations.cur_entry_offset := by
    simp only [journal_entry_is_open, __journal_entry_is_open,
      decide_eq_false_iff_not, not_lt] at hclosed
    exact hclosed
  simp only [journal_res_get_fast]
  rw [if_pos (by omega)]

/-- The fast path always fails when the caller watermark is below the
journal's configured watermark. -/
theorem res_fast_fails_watermark {j : journal} {res : journal_res}
    {flags : journal_res_flags} (hw : flags.watermark < j.watermark) :
    journal_res_get_fast j res flags = none := by
  simp only [journal_res_get_fast]
  by_cases hg1 : j.reservations.cur_entry_offset + res.u64s > j.cur_entry_u64s
  · rw [if_pos hg1]
  · rw [if_neg hg1, if_pos hw]

/-- Modelled from the spec: completion of the oldest unwritten entry's
replicated write (journal_io.c, not in src): seq_ondisk advances by
one, flushed_seq_ondisk and last_seq_ondisk advance too unless the
entry was written noflush, and the unwritten index moves to the next
slot. -/
def journal_write_done_step (j : journal) : Option journal :=
  if j.seq_ondisk < j.seq then
    let w := j.seq_ondisk + 1
    let b := j.getBuf w
    some { j with
      seq_ondisk := w,
      flushed_seq_ondisk := if b.noflush then j.flushed_seq_ondisk else w,
      last_seq_ondisk := if b.noflush then j.last_seq_ondisk else b.last_seq,
      reservations := { j.reservations with
        unwritten_idx := (j.reservations.unwritten_idx + 1) % 4 } }
  else none

/-- The reservation-engine invariants maintained across the journal
operations: the buffer pool has exactly JOURNAL_BUF_NR slots, the
current-entry size budget sits below the CLOSED sentinel, and while an
entry is open its slot is the reservation index, holds the current
sequence, and the index equals the sequence mod the pool size. -/
def journal_wf (j : journal) : Prop :=
  j.buf.length = JOURNAL_BUF_NR ∧
  j.cur_entry_u64s < JOURNAL_ENTRY_CLOSED_VAL ∧
  (journal_entry_is_open j = true →
    (j.getBuf j.reservations.idx).data_seq = j.seq) ∧
  (journal_entry_is_open j = true →
    j.reservations.idx % JOURNAL_BUF_NR = j.seq % JOURNAL_BUF_NR)

/-- One transition of the journal state machine; the Nat counts how
many journal entries the transition opened. -/
inductive journal_step : journal → journal → Nat → Prop where
  | close_step {j j1 : journal}
      (h : __journal_entry_close j JOURNAL_ENTRY_CLOSED_VAL = some j1) :
      journal_step j j1 0
  | halt_step {j j1 : journal} (h : bch2_journal_halt j = some j1) :
      journal_step j j1 0
  | open_ok_step {j j1 : journal}
      (h : journal_entry_open j = some (journal_err.ok, j1)) :
      journal_step j j1 1
  | open_err_step {j j1 : journal} {e : journal_err}
      (h : journal_entry_open j = some (e, j1)) (he : e ≠ journal_err.ok) :
      journal_step j j1 0
  | res_fast_step {j j1 : journal} {res res1 : journal_res}
      {flags : journal_res_flags} (hchk : flags.check = false)
      (h : journal_res_get_fast j res flags = some (j1, res1)) :
      journal_step j j1 0
  | res_put_step {j : journal} (res : journal_res) :
      journal_step j (bch2_journal_res_put j res) 0
  | write_done_step {j j1 : journal} (h : journal_write_done_step j = some j1) :
      journal_step j j1 0

/-- Reflexive-transitive closure of journal_step, accumulating the
number of opened entries. -/
inductive journal_reach : journal → journal → Nat → Prop where
  | refl (j : journal) : journal_reach j j 0
  | tail {j j1 j2 : journal} {n k : Nat}
      (hr : journal_reach j j1 n) (hs : journal_step j1 j2 k) :
      journal_reach j j2 (n + k)

theorem res_put_frame (j : journal) (res : journal_res) :
    (bch2_journal_res_put j res).seq = j.seq ∧
    (bch2_journal_res_put j res).buf = j.buf ∧
    (bch2_journal_res_put j res).reservations.cur_entry_offset =
      j.reservations.cur_entry_offset ∧
    (bch2_journal_res_put j res).reservations.idx = j.reservations.idx ∧
    (bch2_journal_res_put j res).cur_entry_u64s = j.cur_entry_u64s ∧
    (bch2_journal_res_put j res).err_seq = j.err_seq ∧
    (bch2_journal_res_put j res).pin = j.pin ∧
    (bch2_journal_res_put j res).seq_ondisk = j.seq_ondisk ∧
    (bch2_journal_res_put j res).flushed_seq_ondisk = j.flushed_seq_ondisk ∧
    (bch2_journal_res_put j res).watermark = j.watermark := by
  simp only [bch2_journal_res_put, bch2_journal_buf_put]
  split
  · exact ⟨rfl, rfl, offset_state_dec _ _, idx_state_dec _ _, rfl, rfl, rfl, rfl,
      rfl, rfl⟩
  · exact ⟨rfl, rfl, rfl, rfl, rfl, rfl, rfl, rfl, rfl, rfl⟩

theorem write_done_frame {j j1 : journal} (h : journal_write_done_step j = some j1) :
    j1.seq = j.seq ∧ j1.buf = j.buf ∧
    j1.reservations.cur_entry_offset = j.reservations.cur_entry_offset ∧
    j1.reservations.idx = j.reservations.idx ∧
    j1.cur_entry_u64s = j.cur_entry_u64s ∧ j1.err_seq = j.err_seq ∧
    j1.pin = j.pin ∧ j1.watermark = j.watermark := by
  simp only [journal_write_done_step] at h
  split at h
  · cases h
    exact ⟨rfl, rfl, rfl, rfl, rfl, rfl, rfl, rfl⟩
  · cases h

theorem sentinel_not_open {s : journal_res_state} {cv : Nat}
    (hcv : cv = JOURNAL_ENTRY_CLOSED_VAL ∨ cv = JOURNAL_ENTRY_ERROR_VAL)
    (hoff : s.cur_entry_offset = cv) : __journal_entry_is_open s = false := by
  simp only [__journal_entry_is_open, decide_eq_false_iff_not, not_lt]
  rcases hcv with rfl | rfl
  · exact le_of_eq hoff.symm
  · rw [hoff]
    simp only [JOURNAL_ENTRY_CLOSED_VAL, JOURNAL_ENTRY_ERROR_VAL]
    omega

theorem open_iff_reservations {j j1 : journal}
    (h : j1.reservations = j.reservations) :
    journal_entry_is_open j1 = journal_entry_is_open j := by
  simp [journal_entry_is_open, h]

theorem wf_close {j j1 : journal} {cv : Nat} (hwf : journal_wf j)
    (hcv : cv = JOURNAL_ENTRY_CLOSED_VAL ∨ cv = JOURNAL_ENTRY_ERROR_VAL)
    (h : __journal_entry_close j cv = some j1) : journal_wf j1 := by
  obtain ⟨hlen, hu, _, _⟩ := hwf
  have hf := close_frame h
  rcases close_offset_cases h with ⟨rfl, _⟩ | hoff
  · exact ⟨hlen, hu, by assumption, by assumption⟩
  · have hnotopen : journal_entry_is_open j1 = false := by
      simpa [journal_entry_is_open] using sentinel_not_open hcv hoff
    refine ⟨hf.2.2.2.1.trans hlen, hf.2.2.1 ▸ hu, ?_, ?_⟩ <;>
      intro hop <;> rw [hnotopen] at hop <;> cases hop

theorem halt_seq {j j1 : journal} (h : bch2_journal_halt j = some j1) :
    j1.seq = j.seq ∧ j1.buf.length = j.buf.length ∧
    j1.cur_entry_u64s = j.cur_entry_u64s := by
  simp only [bch2_journal_halt] at h
  cases hc : __journal_entry_close j JOURNAL_ENTRY_ERROR_VAL with
  | none => rw [hc] at h; cases h
  | some j2 =>
    rw [hc] at h
    have hf := close_frame hc
    cases h
    split <;>
      exact ⟨hf.1, hf.2.2.2.1, hf.2.2.1⟩

theorem halt_spec {j j1 : journal} (h : bch2_journal_halt j = some j1) :
    j1.reservations.cur_entry_offset = JOURNAL_ENTRY_ERROR_VAL ∧
    (j.err_seq = 0 → j1.err_seq = j.seq) ∧
    (j.err_seq ≠ 0 → j1.err_seq = j.err_seq) := by
  simp only [bch2_journal_halt] at h
  cases hc : __journal_entry_close j JOURNAL_ENTRY_ERROR_VAL with
  | none => rw [hc] at h; cases h
  | some j2 =>
    rw [hc] at h
    have hf := close_frame hc
    have hoff : j2.reservations.cur_entry_offset = JOURNAL_ENTRY_ERROR_VAL := by
      rcases close_offset_cases hc with ⟨rfl, hor⟩ | hoff2
      · rcases hor with hx | hx <;> exact hx
      · exact hoff2
    cases h
    constructor
    · split <;> exact hoff
    constructor
    · intro hz
      rw [if_pos (by rw [hf.2.1]; exact hz)]
      exact hf.1
    · intro hz
      rw [if_neg (by rw [hf.2.1]; exact hz)]
      exact hf.2.1

theorem wf_halt {j j1 : journal} (hwf : journal_wf j)
    (h : bch2_journal_halt j = some j1) : journal_wf j1 := by
  simp only [bch2_journal_halt] at h
  cases hc : __journal_entry_close j JOURNAL_ENTRY_ERROR_VAL with
  | none => rw [hc] at h; cases h
  | some j2 =>
    rw [hc] at h
    have hwf2 := wf_close hwf (Or.inr rfl) hc
    cases h
    split
    · obtain ⟨ha, hb, hcc, hd⟩ := hwf2
      exact ⟨ha, hb, fun hx => hcc (by simpa [journal_entry_is_open] using hx),
        fun hx => hd (by simpa [journal_entry_is_open] using hx)⟩
    · exact hwf2

theorem res_fast_pre_open {j j1 : journal} {res res1 : journal_res}
    {flags : journal_res_flags}
    (hu : j.cur_entry_u64s < JOURNAL_ENTRY_CLOSED_VAL)
    (h : journal_res_get_fast j res flags = some (j1, res1)) :
    journal_entry_is_open j = true := by
  by_contra hx
  rw [res_fast_fails_closed hu (Bool.not_eq_true _ ▸ Bool.eq_false_iff.mpr ?_)] at h
  · cases h
  · intro hy
    exact hx hy

theorem wf_res_fast {j j1 : journal} {res res1 : journal_res}
    {flags : journal_res_flags} (hwf : journal_wf j) (hchk : flags.check = false)
    (h : journal_res_get_fast j res flags = some (j1, res1)) : journal_wf j1 := by
  obtain ⟨hlen, hu, hds, hix⟩ := hwf
  obtain ⟨hle, hseq, hbuf, hoff, hidx, hu64, _, _, _, _, _, _, _, _⟩ :=
    res_fast_ok_spec hchk h
  have hopen : journal_entry_is_open j = true := res_fast_pre_open hu h
  refine ⟨by rw [hbuf]; exact hlen, hu64 ▸ hu, ?_, ?_⟩
  · intro _
    have : j1.getBuf j1.reservations.idx = j.getBuf j.reservations.idx := by
      simp [journal.getBuf, hbuf, hidx]
    rw [this, hseq]
    exact hds hopen
  · intro _
    rw [hidx, hseq]
    exact hix hopen

theorem wf_open_ok {j j1 : journal} (hwf : journal_wf j)
    (h : journal_entry_open j = some (journal_err.ok, j1)) : journal_wf j1 := by
  obtain ⟨hlen, _, _, _⟩ := hwf
  obtain ⟨_, _, _, hseq, hoff, hidx, hmod, hpos, hlt, hlen1, hds, _, _, _, _, _,
    _, _, _⟩ := open_ok_spec hlen h
  refine ⟨hlen1.trans hlen, hlt, ?_, ?_⟩
  · intro _
    rw [getBuf_congr j1 hmod]
    exact hds
  · intro _
    exact hmod

theorem wf_open_err {j j1 : journal} {e : journal_err} (hwf : journal_wf j)
    (h : journal_entry_open j = some (e, j1)) (he : e ≠ journal_err.ok) :
    journal_wf j1 := by
  obtain ⟨hlen, hu, hds, hix⟩ := hwf
  obtain ⟨hres, hseq, _, hu64, hlen1, _, _, _, _, _, hbufs⟩ :=
    open_err_spec hlen h he
  have hopen := open_iff_reservations hres
  refine ⟨hlen1.trans hlen, hu64 ▸ hu, ?_, ?_⟩
  · intro hop
    rw [hres, (hbufs j.reservations.idx).1, hseq]
    exact hds (hopen ▸ hop)
  · intro hop
    rw [hres, hseq]
    exact hix (hopen ▸ hop)

theorem wf_res_put (j : journal) (res : journal_res) (hwf : journal_wf j) :
    journal_wf (bch2_journal_res_put j res) := by
  obtain ⟨hlen, hu, hds, hix⟩ := hwf
  obtain ⟨hseq, hbuf, hoff, hidx, hu64, _, _, _, _, _⟩ := res_put_frame j res
  have hopen : journal_entry_is_open (bch2_journal_res_put j res) =
      journal_entry_is_open j := by
    simp [journal_entry_is_open, __journal_entry_is_open, hoff]
  refine ⟨by rw [hbuf]; exact hlen, hu64 ▸ hu, ?_, ?_⟩
  · intro hop
    have : (bch2_journal_res_put j res).getBuf
        (bch2_journal_res_put j res).reservations.idx =
        j.getBuf j.reservations.idx := by
      simp [journal.getBuf, hbuf, hidx]
    rw [this, hseq]
    exact hds (hopen ▸ hop)
  · intro hop
    rw [hidx, hseq]
    exact hix (hopen ▸ hop)

theorem wf_write_done {j j1 : journal} (hwf : journal_wf j)
    (h : journal_write_done_step j = some j1) : journal_wf j1 := by
  obtain ⟨hlen, hu, hds, hix⟩ := hwf
  obtain ⟨hseq, hbuf, hoff, hidx, hu64, _, _, _⟩ := write_done_frame h
  have hopen : journal_entry_is_open j1 = journal_entry_is_open j := by
    simp [journal_entry_is_open, __journal_entry_is_open, hoff]
  refine ⟨by rw [hbuf]; exact hlen, hu64 ▸ hu, ?_, ?_⟩
  · intro hop
    have : j1.getBuf j1.reservations.idx = j.getBuf j.reservations.idx := by
      simp [journal.getBuf, hbuf, hidx]
    rw [this, hseq]
    exact hds (hopen ▸ hop)
  · intro hop
    rw [hidx, hseq]
    exact hix (hopen ▸ hop)

theorem wf_step {j j1 : journal} {n : Nat} (hwf : journal_wf j)
    (hs : journal_step j j1 n) : journal_wf j1 := by
  cases hs with
  | close_step h => exact wf_close hwf (Or.inl rfl) h
  | halt_step h => exact wf_halt hwf h
  | open_ok_step h => exact wf_open_ok hwf h
  | open_err_step h he => exact wf_open_err hwf h he
  | res_fast_step hchk h => exact wf_res_fast hwf hchk h
  | res_put_step res => exact wf_res_put _ res hwf
  | write_done_step h => exact wf_write_done hwf h

theorem step_seq {j j1 : journal} {n : Nat} (hwf : journal_wf j)
    (hs : journal_step j j1 n) : j1.seq = j.seq + n := by
  cases hs with
  | close_step h => simpa using (close_frame h).1
  | halt_step h => simpa using (halt_seq h).1
  | open_ok_step h => exact (open_ok_spec hwf.1 h).2.2.2.1
  | open_err_step h he => simpa using (open_err_spec hwf.1 h he).2.1
  | res_fast_step hchk h => simpa using (res_fast_ok_spec hchk h).2.1
  | res_put_step res => simpa using (res_put_frame _ res).1
  | write_done_step h => simpa using (write_done_frame h).1

theorem reach_wf {j j1 : journal} {n : Nat} (hwf : journal_wf j)
    (hr : journal_reach j j1 n) : journal_wf j1 := by
  induction hr with
  | refl => exact hwf
  | tail hr hs ih => exact wf_step ih hs

theorem reach_seq {j j1 : journal} {n : Nat} (hwf : journal_wf j)
    (hr : journal_reach j j1 n) : j1.seq = j.seq + n := by
  induction hr with
  | refl => rfl
  | tail hr hs ih =>
    rw [step_seq (reach_wf hwf hr) hs, ih]
    omega

/-- A successful fast-path grant hands out exactly the journal's
current sequence number. -/
theorem res_fast_grant_seq {j j1 : journal} {res res1 : journal_res}
    {flags : journal_res_flags} (hwf : journal_wf j) (hchk : flags.check = false)
    (h : journal_res_get_fast j res flags = some (j1, res1)) :
    res1.seq = j.seq ∧ j1.seq = j.seq := by
  have hopen := res_fast_pre_open hwf.2.1 h
  obtain ⟨_, hseq, _, _, _, _, _, _, _, _, _, _, hrseq, _⟩ := res_fast_ok_spec hchk h
  exact ⟨hrseq.trans (hwf.2.2.1 hopen), hseq⟩

/-- The ERROR sentinel is absorbing for every single journal step. -/
theorem step_error_absorb {j j1 : journal} {n : Nat} (hwf : journal_wf j)
    (hoff : j.reservations.cur_entry_offset = JOURNAL_ENTRY_ERROR_VAL)
    (hs : journal_step j j1 n) :
    j1.reservations.cur_entry_offset = JOURNAL_ENTRY_ERROR_VAL := by
  cases hs with
  | close_step h =>
    have hnoop := close_noop (Or.inl rfl) (Or.inl hoff)
    rw [hnoop] at h
    cases h
    exact hoff
  | halt_step h => exact (halt_spec h).1
  | open_ok_step h => exact absurd hoff (open_ok_spec hwf.1 h).2.1
  | open_err_step h he =>
    rw [(open_err_spec hwf.1 h he).1]
    exact hoff
  | res_fast_step hchk h =>
    have hopen := res_fast_pre_open hwf.2.1 h
    have : __journal_entry_is_open j.reservations = false :=
      sentinel_not_open (Or.inr rfl) hoff
    rw [journal_entry_is_open] at hopen
    rw [hopen] at this
    cases this
  | res_put_step res =>
    rw [(res_put_frame _ res).2.2.1]
    exact hoff
  | write_done_step h =>
    rw [(write_done_frame h).2.2.1]
    exact hoff

/-- The ERROR sentinel is absorbing along every reachable trace. -/
theorem reach_error_absorb {j j1 : journal} {n : Nat} (hwf : journal_wf j)
    (hoff : j.reservations.cur_entry_offset = JOURNAL_ENTRY_ERROR_VAL)
    (hr : journal_reach j j1 n) :
    j1.reservations.cur_entry_offset = JOURNAL_ENTRY_ERROR_VAL := by
  induction hr with
  | refl => exact hoff
  | tail hr hs ih => exact step_error_absorb (reach_wf hwf hr) ih hs

/-- With the journal in the ERROR state, the reservation slow path
fails fast with -EROFS, leaving the state and the reservation
untouched. -/
theorem res_get_erofs {j : journal} {res : journal_res}
    {flags : journal_res_flags} {fuel : Nat}
    (hu : j.cur_entry_u64s < JOURNAL_ENTRY_CLOSED_VAL)
    (hoff : j.reservations.cur_entry_offset = JOURNAL_ENTRY_ERROR_VAL) :
    __journal_res_get (fuel + 1) j res flags = some (ERR_EROFS, j, res) := by
  have hclosed : journal_entry_is_open j = false := by
    simpa [journal_entry_is_open] using sentinel_not_open (Or.inr rfl) hoff
  have hfast : journal_res_get_fast j res flags = none :=
    res_fast_fails_closed hu hclosed
  have herr : bch2_journal_error j = true := by
    simp [bch2_journal_error, hoff]
  simp only [__journal_res_get, hfast, herr]
  simp

/-- C1: sequence numbers are assigned monotonically.  For two
reservations successfully granted by the fast path, the later one's
sequence exceeds the earlier one's by exactly the number of entries
opened in between: equal when the same entry is still open (no opens),
strictly greater as soon as one open happened, so reservations against
different entries never share a sequence; and journal_entry_open bumps
the sequence counter by exactly one per opened entry. -/
theorem C1_seq_monotonic {j j1 jm j2 : journal} {r r1 q q1 : journal_res}
    {fa fb : journal_res_flags} {n : Nat}
    (hwf : journal_wf j)
    (hca : fa.check = false) (hcb : fb.check = false)
    (hg1 : journal_res_get_fast j r fa = some (j1, r1))
    (hreach : journal_reach j1 jm n)
    (hg2 : journal_res_get_fast jm q fb = some (j2, q1)) :
    q1.seq = r1.seq + n ∧ r1.seq ≤ q1.seq ∧
    (0 < n → r1.seq < q1.seq) ∧ (n = 0 → q1.seq = r1.seq) ∧
    (∀ k k1 : journal, k.buf.length = JOURNAL_BUF_NR →
      journal_entry_open k = some (journal_err.ok, k1) → k1.seq = k.seq + 1) := by
  have h1 := res_fast_grant_seq hwf hca hg1
  have hwf1 := wf_res_fast hwf hca hg1
  have hwfm := reach_wf hwf1 hreach
  have hms := reach_seq hwf1 hreach
  have h2 := res_fast_grant_seq hwfm hcb hg2
  have hq : q1.seq = r1.seq + n := by
    rw [h2.1, hms, (res_fast_ok_spec hca hg1).2.1, h1.1]
  refine ⟨hq, by omega, by omega, by omega, ?_⟩
  intro k k1 hk hko
  exact (open_ok_spec hk hko).2.2.2.1

/-- C4: the journal ERROR state is absorbing and makes reservations
fail fast.  bch2_journal_halt leaves the offset at the ERROR sentinel
and records err_seq only if unset; no reachable sequence of close /
halt / open / reserve / release / write-completion steps ever moves the
offset off ERROR, and from any such state the reservation slow path
returns -EROFS without granting a sequence or changing any state. -/
theorem C4_halt_error_absorbing {j j1 : journal} (hwf : journal_wf j)
    (h : bch2_journal_halt j = some j1) :
    j1.reservations.cur_entry_offset = JOURNAL_ENTRY_ERROR_VAL ∧
    (j.err_seq = 0 → j1.err_seq = journal_cur_seq j) ∧
    (j.err_seq ≠ 0 → j1.err_seq = j.err_seq) ∧
    ∀ j2 n, journal_reach j1 j2 n →
      j2.reservations.cur_entry_offset = JOURNAL_ENTRY_ERROR_VAL ∧
      ∀ res flags fuel,
        __journal_res_get (fuel + 1) j2 res flags = some (ERR_EROFS, j2, res) := by
  have hs := halt_spec h
  have hwf1 := wf_halt hwf h
  refine ⟨hs.1, hs.2.1, hs.2.2, ?_⟩
  intro j2 n hr
  have hwf2 := reach_wf hwf1 hr
  have hoff2 := reach_error_absorb hwf1 hs.1 hr
  exact ⟨hoff2, fun res flags fuel => res_get_erofs hwf2.2.1 hoff2⟩

instance (j : journal) : Decidable (journal_wf j) := by
  unfold journal_wf
  infer_instance

/-- A small concrete buffer used by the witness states. -/
def wbuf : journal_buf :=
  { data_seq := 0, data_u64s := 0, data_last_seq := 0, last_seq := 0, sectors := 8,
    disk_sectors := 8, buf_size := 4096, u64s_reserved := 0, noflush := false,
    must_flush := false, separate_flush := false, flush_time := 0, expires := 0,
    waiters := [] }

/-- A concrete journal with entry 1 open on slot 1 and one pin. -/
def jC1w : journal :=
  { reservations :=
      { cur_entry_offset := 0, idx := 1, unwritten_idx := 2,
        buf0_count := 0, buf1_count := 1, buf2_count := 0, buf3_count := 0 },
    seq := 1, seq_ondisk := 1, flushed_seq_ondisk := 1, last_seq_ondisk := 1,
    err_seq := 0,
    pin := { front := 1, size := 8, counts := [1] },
    buf := [wbuf, { wbuf with data_seq := 1 }, wbuf, wbuf],
    blocked := 0, cur_entry_err := journal_err.ok, cur_entry_u64s := 504,
    cur_entry_sectors := 8, entry_u64s_reserved := 0, watermark := 0,
    buf_size_want := 0, can_discard := false, res_get_blocked_start := 0,
    space_next_entry := 8, space_can_discard := false, fatal := false,
    jiffies := 0, last_flush_write := 0, flush_delay := 0, block_bits := 0 }

def fl0 : journal_res_flags := { watermark := 0, nonblock := false, check := false }

/-- jC1w after a fast-path grant of 0 u64s. -/
def j1w : journal :=
  { jC1w with reservations := { jC1w.reservations with buf1_count := 2 } }

/-- j1w after closing entry 1. -/
def jBw : journal :=
  { jC1w with
    reservations :=
      { jC1w.reservations with
          cur_entry_offset := JOURNAL_ENTRY_CLOSED_VAL, buf1_count := 1 },
    pin := { front := 2, size := 8, counts := [] },
    buf := [wbuf,
      { wbuf with data_seq := 1, data_last_seq := 1, last_seq := 1, sectors := 1 },
      wbuf, wbuf] }

/-- jBw after opening entry 2 on slot 2. -/
def jCw : journal :=
  { jC1w with
    reservations :=
      { jC1w.reservations with
          cur_entry_offset := 0, idx := 2, buf1_count := 1, buf2_count := 1 },
    seq := 2,
    pin := { front := 2, size := 8, counts := [1] },
    buf := [wbuf,
      { wbuf with data_seq := 1, data_last_seq := 1, last_seq := 1, sectors := 1 },
      { wbuf with data_seq := 2 }, wbuf] }

def r1w : journal_res := { ref := true, idx := 1, u64s := 0, offset := 0, seq := 1 }

def q1w : journal_res := { ref := true, idx := 2, u64s := 0, offset := 0, seq := 2 }

/-- j2 value of the second grant in the C1 witness run. -/
def j2w : journal :=
  { jCw with reservations := { jCw.reservations with buf2_count := 2 } }

/-- Witness for C1: a grant at sequence 1, a close, an open, and a
second grant at sequence 2 = 1 + 1. -/
theorem C1_seq_monotonic_witness :
    q1w.seq = r1w.seq + 1 ∧ r1w.seq ≤ q1w.seq ∧
    (0 < 1 → r1w.seq < q1w.seq) ∧ (1 = 0 → q1w.seq = r1w.seq) ∧
    (∀ k k1 : journal, k.buf.length = JOURNAL_BUF_NR →
      journal_entry_open k = some (journal_err.ok, k1) → k1.seq = k.seq + 1) :=
  @C1_seq_monotonic jC1w j1w jCw j2w default r1w default q1w fl0 fl0 1
    (by decide) (by decide) (by decide) (by decide)
    (journal_reach.tail
      (journal_reach.tail (journal_reach.refl j1w)
        (@journal_step.close_step j1w jBw (by decide)))
      (@journal_step.open_ok_step jBw jCw (by decide)))
    (by decide)

/-- jBw halted: the offset is the ERROR sentinel, err_seq stamped 1. -/
def jHw : journal :=
  { jBw with
    reservations :=
      { jBw.reservations with cur_entry_offset := JOURNAL_ENTRY_ERROR_VAL },
    err_seq := 1 }

/-- Witness for C4: halting the concrete closed journal jBw. -/
theorem C4_halt_error_absorbing_witness :
    jHw.reservations.cur_entry_offset = JOURNAL_ENTRY_ERROR_VAL ∧
    (jBw.err_seq = 0 → jHw.err_seq = journal_cur_seq jBw) ∧
    (jBw.err_seq ≠ 0 → jHw.err_seq = jBw.err_seq) ∧
    ∀ j2 n, journal_reach jHw j2 n →
      j2.reservations.cur_entry_offset = JOURNAL_ENTRY_ERROR_VAL ∧
      ∀ res flags fuel,
        __journal_res_get (fuel + 1) j2 res flags = some (ERR_EROFS, j2, res) :=
  @C4_halt_error_absorbing jBw jHw (by decide) (by decide)

/-- C2: closing an open entry succeeds and stamps the buffer's
last_seq (and the on-disk header's last_seq) with the pin-list
watermark journal_last_seq read at close time; the stamp never exceeds
the entry's own sequence number; afterwards no entry is open, and
journal_entry_open refuses to run in any state with an open entry, so
the stamp is in place strictly before the next entry can open. -/
theorem C2_close_stamps_last_seq {j : journal} {cv : Nat}
    (hwf : journal_wf j)
    (hcv : cv = JOURNAL_ENTRY_CLOSED_VAL ∨ cv = JOURNAL_ENTRY_ERROR_VAL)
    (hopen : journal_entry_is_open j = true)
    (hfit : vstruct_close_sectors j.reservations.cur_entry_offset
        (j.getBuf j.reservations.idx).u64s_reserved j.block_bits ≤
        (j.getBuf j.reservations.idx).sectors)
    (hlast : journal_last_seq j ≤ j.seq) :
    ∃ j1, __journal_entry_close j cv = some j1 ∧
      (j1.getBuf j.reservations.idx).last_seq = journal_last_seq j ∧
      (j1.getBuf j.reservations.idx).data_last_seq = journal_last_seq j ∧
      (j1.getBuf j.reservations.idx).last_seq ≤
        (j1.getBuf j.reservations.idx).data_seq ∧
      journal_entry_is_open j1 = false ∧
      (∀ k : journal, journal_entry_is_open k = true →
        journal_entry_open k = none) := by
  obtain ⟨hlen, _, hds, _⟩ := hwf
  have hofflt : j.reservations.cur_entry_offset < JOURNAL_ENTRY_CLOSED_VAL := by
    simpa [journal_entry_is_open, __journal_entry_is_open] using hopen
  have hcvge : JOURNAL_ENTRY_CLOSED_VAL ≤ cv := by
    rcases hcv with rfl | rfl
    · exact le_refl _
    · simp only [JOURNAL_ENTRY_CLOSED_VAL, JOURNAL_ENTRY_ERROR_VAL]
      omega
  have herrge : JOURNAL_ENTRY_CLOSED_VAL ≤ JOURNAL_ENTRY_ERROR_VAL := by
    simp only [JOURNAL_ENTRY_CLOSED_VAL, JOURNAL_ENTRY_ERROR_VAL]
    omega
  simp only [__journal_entry_close]
  rw [if_neg (by rcases hcv with rfl | rfl <;> simp)]
  rw [if_neg (by push_neg; omega)]
  rw [if_neg (by simpa [journal_entry_is_open] using hopen)]
  rw [if_neg (by omega)]
  have hseq : (j.getBuf j.reservations.idx).data_seq = j.seq := hds hopen
  rw [if_neg (by simp only [hseq]; omega)]
  refine ⟨_, rfl, ?_⟩
  rw [pin_put_eq]
  have hbuf : ∀ m : Nat,
      ((bch2_journal_buf_put
        (bch2_journal_space_available
          { (journal.setBuf { j with
              reservations :=
                { j.reservations with cur_entry_offset := cv } } j.reservations.idx
              { j.getBuf j.reservations.idx with
                  data_u64s := j.reservations.cur_entry_offset,
                  sectors := vstruct_close_sectors j.reservations.cur_entry_offset
                    (j.getBuf j.reservations.idx).u64s_reserved j.block_bits,
                  last_seq := journal_last_seq j,
                  data_last_seq := journal_last_seq j }) with
              pin := (__bch2_journal_pin_put
                (journal.setBuf { j with
                  reservations :=
                    { j.reservations with cur_entry_offset := cv } } j.reservations.idx
                  { j.getBuf j.reservations.idx with
                      data_u64s := j.reservations.cur_entry_offset,
                      sectors := vstruct_close_sectors j.reservations.cur_entry_offset
                        (j.getBuf j.reservations.idx).u64s_reserved j.block_bits,
                      last_seq := journal_last_seq j,
                      data_last_seq := journal_last_seq j })
                (j.getBuf j.reservations.idx).data_seq).pin })
        j.reservations.idx).getBuf m) =
      ((journal.setBuf j j.reservations.idx
        { j.getBuf j.reservations.idx with
            data_u64s := j.reservations.cur_entry_offset,
            sectors := vstruct_close_sectors j.reservations.cur_entry_offset
              (j.getBuf j.reservations.idx).u64s_reserved j.block_bits,
            last_seq := journal_last_seq j,
            data_last_seq := journal_last_seq j }).getBuf m) := by
    intro m
    simp [bch2_journal_buf_put, bch2_journal_space_available, journal.getBuf,
          journal.setBuf]
  rw [hbuf, getBuf_setBuf_same _ _ _ hlen]
  refine ⟨rfl, rfl, by simp only [hseq]; exact hlast, ?_, ?_⟩
  · have : ((bch2_journal_buf_put
        (bch2_journal_space_available
          { (journal.setBuf { j with
              reservations :=
                { j.reservations with cur_entry_offset := cv } } j.reservations.idx
              { j.getBuf j.reservations.idx with
                  data_u64s := j.reservations.cur_entry_offset,
                  sectors := vstruct_close_sectors j.reservations.cur_entry_offset
                    (j.getBuf j.reservations.idx).u64s_reserved j.block_bits,
                  last_seq := journal_last_seq j,
                  data_last_seq := journal_last_seq j }) with
              pin := (__bch2_journal_pin_put
                (journal.setBuf { j with
                  reservations :=
                    { j.reservations with cur_entry_offset := cv } } j.reservations.idx
                  { j.getBuf j.reservations.idx with
                      data_u64s := j.reservations.cur_entry_offset,
                      sectors := vstruct_close_sectors j.reservations.cur_entry_offset
                        (j.getBuf j.reservations.idx).u64s_reserved j.block_bits,
                      last_seq := journal_last_seq j,
                      data_last_seq := journal_last_seq j })
                (j.getBuf j.reservations.idx).data_seq).pin })
        j.reservations.idx).reservations.cur_entry_offset) = cv := by
      simp [bch2_journal_buf_put, bch2_journal_space_available, journal.setBuf,
            offset_state_dec]
    simp only [journal_entry_is_open]
    rw [sentinel_not_open hcv this]
  · intro k hk
    exact entry_open_requires_closed hk

/-- Witness for C2 at the concrete open journal jC1w. -/
theorem C2_close_stamps_last_seq_witness :
    ∃ j1, __journal_entry_close jC1w JOURNAL_ENTRY_CLOSED_VAL = some j1 ∧
      (j1.getBuf jC1w.reservations.idx).last_seq = journal_last_seq jC1w ∧
      (j1.getBuf jC1w.reservations.idx).data_last_seq = journal_last_seq jC1w ∧
      (j1.getBuf jC1w.reservations.idx).last_seq ≤
        (j1.getBuf jC1w.reservations.idx).data_seq ∧
      journal_entry_is_open j1 = false ∧
      (∀ k : journal, journal_entry_is_open k = true →
        journal_entry_open k = none) :=
  @C2_close_stamps_last_seq jC1w JOURNAL_ENTRY_CLOSED_VAL
    (by decide) (Or.inl rfl) (by decide) (by decide) (by decide)

/-- Counterexample for C3 as frozen: jBw is a state whose current
entry offset is the CLOSED sentinel, yet __journal_entry_close with
the ERROR sentinel is not a no-op on it: it rewrites the reservation
state word from CLOSED to ERROR. -/
theorem C3_counterexample :
    __journal_entry_close jBw JOURNAL_ENTRY_ERROR_VAL =
      some { jBw with reservations :=
        { jBw.reservations with cur_entry_offset := JOURNAL_ENTRY_ERROR_VAL } } ∧
    ({ jBw with reservations :=
        { jBw.reservations with cur_entry_offset := JOURNAL_ENTRY_ERROR_VAL }
      } : journal).reservations ≠ jBw.reservations := by
  decide

/-- C3 amended: __journal_entry_close is a complete no-op when the
offset is already ERROR or already equals the requested sentinel;
closing a CLOSED state with the ERROR sentinel changes only the
reservation word's offset (buffer pool and pin list untouched); and
closing twice with the same sentinel equals closing once. -/
theorem C3_close_idempotent {j : journal} {cv : Nat}
    (hcv : cv = JOURNAL_ENTRY_CLOSED_VAL ∨ cv = JOURNAL_ENTRY_ERROR_VAL) :
    ((j.reservations.cur_entry_offset = JOURNAL_ENTRY_ERROR_VAL ∨
      j.reservations.cur_entry_offset = cv) →
      __journal_entry_close j cv = some j) ∧
    (j.reservations.cur_entry_offset = JOURNAL_ENTRY_CLOSED_VAL →
      __journal_entry_close j JOURNAL_ENTRY_ERROR_VAL =
        some { j with reservations :=
          { j.reservations with cur_entry_offset := JOURNAL_ENTRY_ERROR_VAL } }) ∧
    (∀ j1, __journal_entry_close j cv = some j1 →
      __journal_entry_close j1 cv = some j1) := by
  refine ⟨fun hoff => close_noop hcv hoff, ?_, ?_⟩
  · intro hoff
    simp only [__journal_entry_close]
    rw [if_neg (by simp)]
    rw [if_neg (by
      push_neg
      constructor <;> (rw [hoff]; simp [JOURNAL_ENTRY_CLOSED_VAL,
        JOURNAL_ENTRY_ERROR_VAL, JOURNAL_ENTRY_OFFSET_MAX]))]
    rw [if_pos (by
      simp only [__journal_entry_is_open, hoff]
      simp)]
  · intro j1 h
    rcases close_offset_cases h with ⟨rfl, hor⟩ | hoff
    · exact close_noop hcv hor
    · exact close_noop hcv (Or.inr hoff)

/-- Witness for C3 (amended) at the concrete closed journal jBw with
the CLOSED sentinel. -/
theorem C3_close_idempotent_witness :
    ((jBw.reservations.cur_entry_offset = JOURNAL_ENTRY_ERROR_VAL ∨
      jBw.reservations.cur_entry_offset = JOURNAL_ENTRY_CLOSED_VAL) →
      __journal_entry_close jBw JOURNAL_ENTRY_CLOSED_VAL = some jBw) ∧
    (jBw.reservations.cur_entry_offset = JOURNAL_ENTRY_CLOSED_VAL →
      __journal_entry_close jBw JOURNAL_ENTRY_ERROR_VAL =
        some { jBw with reservations :=
          { jBw.reservations with cur_entry_offset := JOURNAL_ENTRY_ERROR_VAL } }) ∧
    (∀ j1, __journal_entry_close jBw JOURNAL_ENTRY_CLOSED_VAL = some j1 →
      __journal_entry_close j1 JOURNAL_ENTRY_CLOSED_VAL = some j1) :=
  @C3_close_idempotent jBw JOURNAL_ENTRY_CLOSED_VAL (Or.inl rfl)

/-- C6: with the earlier open checks passing (entry closed, not
blocked, no space error, journal not halted, pin fifo not full),
journal_entry_open returns max_in_flight exactly when the number of
unwritten entries equals the pool size minus one; and a successful
open requires the incoming slot's outstanding-reservation count to be
zero, so a slot is never reopened while reservations are outstanding. -/
theorem C6_max_in_flight {j : journal}
    (hlen : j.buf.length = JOURNAL_BUF_NR)
    (hclosed : journal_entry_is_open j = false)
    (hblocked : j.blocked = 0)
    (hcerr : j.cur_entry_err = journal_err.ok)
    (herr : bch2_journal_error j = false)
    (hpin : fifo_free j.pin ≠ 0) :
    (nr_unwritten_journal_entries j = JOURNAL_BUF_NR - 1 →
      journal_entry_open j = some (journal_err.max_in_flight, j)) ∧
    (∀ j1, journal_entry_open j = some (journal_err.ok, j1) →
      journal_state_count j.reservations ((j.reservations.idx + 1) % 4) = 0) := by
  constructor
  · intro hnr
    simp only [journal_entry_open]
    rw [if_neg (by simp [hclosed])]
    rw [if_neg (by simp [hblocked])]
    rw [if_neg (by simp [hcerr])]
    rw [if_neg (by simp [herr])]
    rw [if_neg hpin]
    rw [if_pos hnr]
  · intro j1 h
    exact (open_ok_spec hlen h).2.2.1

/-- jBw with three unwritten entries outstanding. -/
def jMW : journal := { jBw with seq := 4 }

/-- Witness for C6 at jMW (3 = JOURNAL_BUF_NR - 1 unwritten entries). -/
theorem C6_max_in_flight_witness :
    (nr_unwritten_journal_entries jMW = JOURNAL_BUF_NR - 1 →
      journal_entry_open jMW = some (journal_err.max_in_flight, jMW)) ∧
    (∀ j1, journal_entry_open jMW = some (journal_err.ok, j1) →
      journal_state_count jMW.reservations ((jMW.reservations.idx + 1) % 4) = 0) :=
  @C6_max_in_flight jMW (by decide) (by decide) (by decide) (by decide)
    (by decide) (by decide)

theorem reclaim_frame (j : journal) :
    (bch2_journal_reclaim j).reservations = j.reservations ∧
    (bch2_journal_reclaim j).seq = j.seq ∧
    (bch2_journal_reclaim j).buf = j.buf ∧
    (bch2_journal_reclaim j).watermark = j.watermark :=
  ⟨rfl, rfl, rfl, rfl⟩

theorem do_discards_frame (j : journal) :
    (bch2_journal_do_discards j).reservations = j.reservations ∧
    (bch2_journal_do_discards j).seq = j.seq ∧
    (bch2_journal_do_discards j).buf = j.buf ∧
    (bch2_journal_do_discards j).watermark = j.watermark ∧
    (bch2_journal_do_discards j).can_discard = false :=
  ⟨rfl, rfl, rfl, rfl, rfl⟩

theorem res_get_watermark_aux : ∀ (fuel : Nat) (j : journal) (res : journal_res)
    (flags : journal_res_flags),
    flags.watermark < j.watermark →
    bch2_journal_error j = false →
    (∀ out, __journal_res_get fuel j res flags = some out →
      out.1 = ERR_EAGAIN ∧ out.2.1.reservations = j.reservations ∧
      out.2.1.seq = j.seq ∧ out.2.1.buf = j.buf ∧
      out.2.1.watermark = j.watermark ∧ out.2.2 = res) ∧
    (1 ≤ fuel → j.can_discard = false →
      (__journal_res_get fuel j res flags).isSome = true) ∧
    (2 ≤ fuel → (__journal_res_get fuel j res flags).isSome = true) := by
  intro fuel
  induction fuel with
  | zero =>
    intro j res flags hw herr
    exact ⟨fun out hout => by simp [__journal_res_get] at hout,
      fun h => by omega, fun h => by omega⟩
  | succ fuel ih =>
    intro j res flags hw herr
    have hfast := @res_fast_fails_watermark j res flags hw
    have hlocked : journal_res_get_locked j flags =
        some (journal_err.journal_full, j) := by
      simp only [journal_res_get_locked]
      rw [if_pos hw]
    have key : __journal_res_get (fuel + 1) j res flags =
        (let j3 :=
          if j.res_get_blocked_start = 0 then
            { j with res_get_blocked_start := max 1 j.jiffies }
          else j
        let j4 :=
          if ¬ j3.can_discard ∧ nr_unwritten_journal_entries j3 = 0 ∧
             flags.watermark = JOURNAL_WATERMARK_reserved then
            { j3 with fatal := true }
          else j3
        if ¬ flags.nonblock then
          if j3.can_discard then
            __journal_res_get fuel (bch2_journal_do_discards j4) res flags
          else
            some (ERR_EAGAIN, bch2_journal_reclaim j4, res)
        else
          some (ERR_EAGAIN, j4, res)) := by
      simp only [__journal_res_get, hfast, hlocked, herr]
      simp
    rw [key]
    set j3 := (if j.res_get_blocked_start = 0 then
        { j with res_get_blocked_start := max 1 j.jiffies } else j) with hj3
    have h3res : j3.reservations = j.reservations := by
      rw [hj3]; split <;> rfl
    have h3seq : j3.seq = j.seq := by
      rw [hj3]; split <;> rfl
    have h3buf : j3.buf = j.buf := by
      rw [hj3]; split <;> rfl
    have h3cd : j3.can_discard = j.can_discard := by
      rw [hj3]; split <;> rfl
    have h3wm : j3.watermark = j.watermark := by
      rw [hj3]; split <;> rfl
    clear_value j3
    have main : ∀ j4 : journal, j4.reservations = j.reservations →
        j4.seq = j.seq → j4.buf = j.buf → j4.watermark = j.watermark →
        (∀ out, (if ¬ flags.nonblock then
            if j3.can_discard then
              __journal_res_get fuel (bch2_journal_do_discards j4) res flags
            else
              some (ERR_EAGAIN, bch2_journal_reclaim j4, res)
          else
            some (ERR_EAGAIN, j4, res)) = some out →
          out.1 = ERR_EAGAIN ∧ out.2.1.reservations = j.reservations ∧
          out.2.1.seq = j.seq ∧ out.2.1.buf = j.buf ∧
          out.2.1.watermark = j.watermark ∧ out.2.2 = res) ∧
        (j.can_discard = false →
          ((if ¬ flags.nonblock then
            if j3.can_discard then
              __journal_res_get fuel (bch2_journal_do_discards j4) res flags
            else
              some (ERR_EAGAIN, bch2_journal_reclaim j4, res)
          else
            some (ERR_EAGAIN, j4, res)) : Option (Int × journal × journal_res)).isSome
            = true) ∧
        (1 ≤ fuel →
          ((if ¬ flags.nonblock then
            if j3.can_discard then
              __journal_res_get fuel (bch2_journal_do_discards j4) res flags
            else
              some (ERR_EAGAIN, bch2_journal_reclaim j4, res)
          else
            some (ERR_EAGAIN, j4, res)) : Option (Int × journal × journal_res)).isSome
            = true) := by
      intro j4 h4res h4seq h4buf h4wm
      have hwdd : flags.watermark < (bch2_journal_do_discards j4).watermark := by
        rw [(do_discards_frame j4).2.2.2.1, h4wm]
        exact hw
      have herrdd : bch2_journal_error (bch2_journal_do_discards j4) = false := by
        simp only [bch2_journal_error, (do_discards_frame j4).1, h4res]
        simpa [bch2_journal_error] using herr
      refine ⟨?_, ?_, ?_⟩
      · intro out hout
        by_cases hnb : flags.nonblock
        · rw [if_neg (by simpa using hnb)] at hout
          cases hout
          exact ⟨rfl, h4res, h4seq, h4buf, h4wm, rfl⟩
        · rw [if_pos (by simpa using hnb)] at hout
          by_cases hcd : j3.can_discard
          · rw [if_pos hcd] at hout
            obtain ⟨ho1, ho2, ho3, ho4, ho6, ho5⟩ :=
              (ih (bch2_journal_do_discards j4) res flags hwdd herrdd).1 out hout
            refine ⟨ho1, ?_, ?_, ?_, ?_, ho5⟩
            · rw [ho2, (do_discards_frame j4).1, h4res]
            · rw [ho3, (do_discards_frame j4).2.1, h4seq]
            · rw [ho4, (do_discards_frame j4).2.2.1, h4buf]
            · rw [ho6, (do_discards_frame j4).2.2.2.1, h4wm]
          · rw [if_neg hcd] at hout
            cases hout
            exact ⟨rfl, (reclaim_frame j4).1.trans h4res,
              (reclaim_frame j4).2.1.trans h4seq,
              (reclaim_frame j4).2.2.1.trans h4buf,
              (reclaim_frame j4).2.2.2.trans h4wm, rfl⟩
      · intro hcdf
        have hc3 : j3.can_discard = false := h3cd.trans hcdf
        by_cases hnb : flags.nonblock
        · rw [if_neg (by simpa using hnb)]
          rfl
        · rw [if_pos (by simpa using hnb), if_neg (by simp [hc3])]
          rfl
      · intro h1
        by_cases hnb : flags.nonblock
        · rw [if_neg (by simpa using hnb)]
          rfl
        · rw [if_pos (by simpa using hnb)]
          by_cases hcd : j3.can_discard
          · rw [if_pos hcd]
            exact (ih (bch2_journal_do_discards j4) res flags hwdd herrdd).2.1
              (by omega) (do_discards_frame j4).2.2.2.2
          · rw [if_neg hcd]
            rfl
    dsimp only []
    by_cases hstuck : ¬ j3.can_discard ∧ nr_unwritten_journal_entries j3 = 0 ∧
        flags.watermark = JOURNAL_WATERMARK_reserved
    · rw [if_pos hstuck]
      obtain ⟨m1, m2, m3⟩ := main { j3 with fatal := true } h3res h3seq h3buf h3wm
      exact ⟨m1, fun _ hcdf => m2 hcdf, fun h2 => m3 (by omega)⟩
    · rw [if_neg hstuck]
      obtain ⟨m1, m2, m3⟩ := main j3 h3res h3seq h3buf h3wm
      exact ⟨m1, fun _ hcdf => m2 hcdf, fun h2 => m3 (by omega)⟩

/-- C5: a reservation request whose caller watermark is strictly below
the journal's configured watermark is rejected by the locked slow path
with journal_full, without closing the current entry and without
opening a new one: the fast path fails, the locked decision returns
journal_full with the state untouched, and however the retry loop
runs, the reservation word (current entry and offset), the sequence
counter and the buffers are unchanged and no reservation is granted;
__journal_res_get surfaces the rejection as -EAGAIN and terminates
with fuel at least 2. -/
theorem C5_watermark_rejected {fuel : Nat} {j : journal} {res : journal_res}
    {flags : journal_res_flags}
    (hw : flags.watermark < j.watermark)
    (herr : bch2_journal_error j = false) :
    journal_res_get_locked j flags = some (journal_err.journal_full, j) ∧
    journal_res_get_fast j res flags = none ∧
    (∀ out, __journal_res_get fuel j res flags = some out →
      out.1 = ERR_EAGAIN ∧ out.2.1.reservations = j.reservations ∧
      out.2.1.seq = j.seq ∧ out.2.1.buf = j.buf ∧ out.2.2 = res) ∧
    (2 ≤ fuel → (__journal_res_get fuel j res flags).isSome = true) := by
  have ha := res_get_watermark_aux fuel j res flags hw herr
  refine ⟨?_, res_fast_fails_watermark hw, ?_, ha.2.2⟩
  · simp only [journal_res_get_locked]
    rw [if_pos hw]
  · intro out hout
    obtain ⟨a1, a2, a3, a4, _, a5⟩ := ha.1 out hout
    exact ⟨a1, a2, a3, a4, a5⟩

/-- jBw with the journal watermark raised to reserved. -/
def jC5w : journal := { jBw with watermark := 2 }

/-- Witness for C5: a watermark-any request against jC5w. -/
theorem C5_watermark_rejected_witness :
    journal_res_get_locked jC5w fl0 = some (journal_err.journal_full, jC5w) ∧
    journal_res_get_fast jC5w default fl0 = none ∧
    (∀ out, __journal_res_get 2 jC5w default fl0 = some out →
      out.1 = ERR_EAGAIN ∧ out.2.1.reservations = jC5w.reservations ∧
      out.2.1.seq = jC5w.seq ∧ out.2.1.buf = jC5w.buf ∧ out.2.2 = default) ∧
    (2 ≤ 2 → (__journal_res_get 2 jC5w default fl0).isSome = true) :=
  @C5_watermark_rejected 2 jC5w default fl0 (by decide) (by decide)

/-- Counterexample for C8 as frozen: on a device with 2^39 buckets of
512 sectors, the code truncates nbuckets >> 7 = 2^32 to a 32-bit
unsigned (0) before clamping and returns the lower clamp 8, while the
claim's exact-arithmetic formula returns the upper clamp 8192. -/
theorem C8_counterexample :
    bch2_dev_journal_alloc_nr (2 ^ 39) 512 = 8 ∧
    dev_journal_alloc_nr_spec (2 ^ 39) 512 = 8192 ∧
    bch2_dev_journal_alloc_nr (2 ^ 39) 512 ≠
      dev_journal_alloc_nr_spec (2 ^ 39) 512 := by
  decide

/-- C8 amended: for every device whose bucket count shifted right by 7
fits in 32 bits (nbuckets < 2^39), the default journal size equals
nbuckets / 128 clamped below to BCH_JOURNAL_BUCKETS_MIN and above to
min(8192, 2^24 / bucket_size), in exact unsigned arithmetic; beyond
that the quotient is truncated mod 2^32 before clamping. -/
theorem C8_default_journal_size {nbuckets bucket_size : Nat}
    (h : nbuckets >>> 7 < 2 ^ 32) :
    bch2_dev_journal_alloc_nr nbuckets bucket_size =
      dev_journal_alloc_nr_spec nbuckets bucket_size := by
  unfold bch2_dev_journal_alloc_nr dev_journal_alloc_nr_spec clamp_t
  rw [Nat.mod_eq_of_lt h, Nat.shiftRight_eq_div_pow]
  norm_num

/-- Witness for C8 (amended) on a 2048-bucket device with 4-sector
buckets. -/
theorem C8_default_journal_size_witness :
    bch2_dev_journal_alloc_nr 2048 4 = dev_journal_alloc_nr_spec 2048 4 :=
  @C8_default_journal_size 2048 4 (by decide)

/-- C9: when the superblock write fails in
__bch2_set_nr_journal_buckets after the in-memory insertion of at
least one newly allocated bucket, the device's bucket array,
bucket_seq array, bucket count and all four ring indices are restored
to exactly their values from before the call, and the superblock
error is returned. -/
theorem C9_grow_reverts_on_sb_failure {ja : journal_device} {nr : Nat}
    {bu : List Nat} {cl : Bool} {sb_ret : Int}
    (hgot : min bu.length (nr - ja.nr) ≠ 0)
    (hsb : sb_ret ≠ 0) :
    __bch2_set_nr_journal_buckets ja nr bu cl sb_ret = (sb_ret, ja) := by
  unfold __bch2_set_nr_journal_buckets
  rw [if_neg hgot, if_pos hsb]

/-- A concrete two-bucket journal device. -/
def jaW : journal_device :=
  { nr := 2, buckets := [10, 20], bucket_seq := [5, 6], discard_idx := 1,
    dirty_idx_ondisk := 1, dirty_idx := 1, cur_idx := 1 }

/-- Witness for C9: growing jaW from 2 to 4 buckets with the
superblock write failing with -EIO. -/
theorem C9_grow_reverts_on_sb_failure_witness :
    __bch2_set_nr_journal_buckets jaW 4 [30, 40] true ERR_EIO = ( ERR_EIO, jaW) :=
  @C9_grow_reverts_on_sb_failure jaW 4 [30, 40] true ERR_EIO (by decide) (by decide)

/-- C10: the public grow interface bch2_set_nr_journal_buckets returns
0 immediately for every requested count strictly below the current
ring size, leaving the device ring, all four indices and the
superblock (nothing ever written) unchanged. -/
theorem C10_shrink_is_noop {ja : journal_device} {nr : Nat}
    {envs : List grow_env} (h : nr < ja.nr) :
    bch2_set_nr_journal_buckets ja nr envs = some (0, ja, false) := by
  unfold bch2_set_nr_journal_buckets
  rw [if_pos h]

/-- Witness for C10: asking jaW (2 buckets) to shrink to 1. -/
theorem C10_shrink_is_noop_witness :
    bch2_set_nr_journal_buckets jaW 1 [] = some (0, jaW, false) :=
  @C10_shrink_is_noop jaW 1 [] (by decide)

/-- A state is fresh when its open entry, if any, has not been marked
noflush: journal_entry_open always clears the flag, and nothing sets
it on the open entry along the reservation paths. -/
def journal_fresh (j : journal) : Prop :=
  journal_entry_is_open j = true → (j.getBuf j.seq).noflush = false

theorem fresh_of_closed {j : journal}
    (h : journal_entry_is_open j = false) : journal_fresh j := by
  intro hop
  rw [h] at hop
  cases hop

/-- Transfer of the invariants across steps that keep the reservation
word, sequence, buffers and entry budget. -/
theorem journal_props_transfer {a b : journal}
    (hres : b.reservations = a.reservations) (hseq : b.seq = a.seq)
    (hbuf : b.buf = a.buf) (hu : b.cur_entry_u64s = a.cur_entry_u64s) :
    (journal_wf a → journal_wf b) ∧ (journal_fresh a → journal_fresh b) ∧
    journal_entry_is_open b = journal_entry_is_open a := by
  have hg : ∀ i, b.getBuf i = a.getBuf i := fun i => by
    simp [journal.getBuf, hbuf]
  have hop : journal_entry_is_open b = journal_entry_is_open a := by
    simp [journal_entry_is_open, hres]
  refine ⟨?_, ?_, hop⟩
  · rintro ⟨h1, h2, h3, h4⟩
    refine ⟨by rw [hbuf]; exact h1, hu ▸ h2, ?_, ?_⟩
    · intro hopb
      rw [hres, hg, hseq]
      exact h3 (hop ▸ hopb)
    · intro hopb
      rw [hres, hseq]
      exact h4 (hop ▸ hopb)
  · intro hf hopb
    rw [hg, hseq]
    exact hf (hop ▸ hopb)

theorem close_closed_after {j j1 : journal} {cv : Nat}
    (hcv : cv = JOURNAL_ENTRY_CLOSED_VAL ∨ cv = JOURNAL_ENTRY_ERROR_VAL)
    (h : __journal_entry_close j cv = some j1) :
    journal_entry_is_open j1 = false := by
  rcases close_offset_cases h with ⟨rfl, hor⟩ | hoff
  · rcases hor with hx | hx
    · simpa [journal_entry_is_open] using sentinel_not_open (Or.inr rfl) hx
    · simpa [journal_entry_is_open] using sentinel_not_open hcv hx
  · simpa [journal_entry_is_open] using sentinel_not_open hcv hoff

/-- Characterization of journal_res_get_locked under the invariants:
it preserves them and the sequence only grows; a journal_full
rejection by the watermark gate leaves the state untouched; on ok the
new entry is open at the next sequence on a fresh (noflush-cleared)
buffer; on any other error the state ends closed. -/
theorem locked_spec {j jl : journal} {flags : journal_res_flags}
    {ret : journal_err} (hwf : journal_wf j) (hfr : journal_fresh j)
    (h : journal_res_get_locked j flags = some (ret, jl)) :
    journal_wf jl ∧ journal_fresh jl ∧ j.seq ≤ jl.seq ∧
    (ret = journal_err.ok → journal_entry_is_open jl = true ∧
      jl.seq = j.seq + 1 ∧ (jl.getBuf jl.seq).noflush = false ∧
      (jl.getBuf jl.seq).data_seq = jl.seq) ∧
    (ret ≠ journal_err.ok →
      (flags.watermark < j.watermark ∧ jl = j) ∨
      journal_entry_is_open jl = false) := by
  simp only [journal_res_get_locked] at h
  by_cases hw : flags.watermark < j.watermark
  · rw [if_pos hw] at h
    injection h with h
    injection h with ha hb
    subst ha
    subst hb
    exact ⟨hwf, hfr, le_refl _, fun hx => absurd hx (by decide),
      fun hx => Or.inl ⟨hw, rfl⟩⟩
  rw [if_neg hw] at h
  have main : ∀ jw : journal, jw.reservations = j.reservations →
      jw.seq = j.seq → jw.buf = j.buf →
      jw.cur_entry_u64s = j.cur_entry_u64s →
      (match __journal_entry_close jw JOURNAL_ENTRY_CLOSED_VAL with
        | none => none
        | some j1 => journal_entry_open j1) = some (ret, jl) →
      journal_wf jl ∧ journal_fresh jl ∧ j.seq ≤ jl.seq ∧
      (ret = journal_err.ok → journal_entry_is_open jl = true ∧
        jl.seq = j.seq + 1 ∧ (jl.getBuf jl.seq).noflush = false ∧
        (jl.getBuf jl.seq).data_seq = jl.seq) ∧
      (ret ≠ journal_err.ok →
        (flags.watermark < j.watermark ∧ jl = j) ∨
        journal_entry_is_open jl = false) := by
    intro jw hres hseq hbuf hu hm
    have hwfw : journal_wf jw :=
      (journal_props_transfer hres hseq hbuf hu).1 hwf
    cases hc : __journal_entry_close jw JOURNAL_ENTRY_CLOSED_VAL with
    | none => rw [hc] at hm; cases hm
    | some j1 =>
      rw [hc] at hm
      have hwf1 : journal_wf j1 := wf_close hwfw (Or.inl rfl) hc
      have hcl1 : journal_entry_is_open j1 = false :=
        close_closed_after (Or.inl rfl) hc
      have hseq1 : j1.seq = j.seq := (close_frame hc).1.trans hseq
      by_cases hret : ret = journal_err.ok
      · subst hret
        obtain ⟨_, _, _, hs, hoff, _, hmod, _, hlt, hlen1, hds, hnf, _, _, _, _,
          _, _, _⟩ := open_ok_spec hwf1.1 hm
        have hopen : journal_entry_is_open jl = true := by
          simp only [journal_entry_is_open, __journal_entry_is_open, hoff]
          simp [JOURNAL_ENTRY_CLOSED_VAL, JOURNAL_ENTRY_OFFSET_MAX]
        refine ⟨wf_open_ok hwf1 hm, ?_, ?_, ?_, ?_⟩
        · intro _
          exact hnf
        · rw [hs, hseq1]
          omega
        · intro _
          exact ⟨hopen, by rw [hs, hseq1], hnf, hds⟩
        · intro hx
          exact absurd rfl hx
      · obtain ⟨hres2, hseq2, _, _, _, _, _, _, _, _, _⟩ :=
          open_err_spec hwf1.1 hm hret
        have hcl2 : journal_entry_is_open jl = false := by
          rw [open_iff_reservations hres2]
          exact hcl1
        refine ⟨wf_open_err hwf1 hm hret, fresh_of_closed hcl2, ?_,
          fun hx => absurd hx hret, fun _ => Or.inr hcl2⟩
        rw [hseq2, hseq1]
  by_cases hgrow : journal_entry_is_open j = true ∧
      (journal_cur_buf j).buf_size / 512 < (journal_cur_buf j).disk_sectors ∧
      (journal_cur_buf j).buf_size < JOURNAL_ENTRY_SIZE_MAX
  · rw [if_pos hgrow] at h
    exact main
      { j with buf_size_want := max j.buf_size_want ((journal_cur_buf j).buf_size * 2) }
      rfl rfl rfl rfl h
  · rw [if_neg hgrow] at h
    exact main j rfl rfl rfl rfl h

/-- Fuel-indexed characterization of __journal_res_get: well-formedness
and freshness are preserved, seq never decreases, a successful grant
returns an open journal with the reservation on the current (flushable)
entry, strictly later than the start if the start was closed; a failed
attempt leaves the reservation untouched and ends closed or
watermark-blocked. -/
theorem rg_spec : ∀ (fuel : Nat) (j : journal) (res : journal_res)
    (flags : journal_res_flags) (out : Int × journal × journal_res),
    journal_wf j → journal_fresh j → flags.check = false →
    __journal_res_get fuel j res flags = some out →
    journal_wf out.2.1 ∧ journal_fresh out.2.1 ∧ j.seq ≤ out.2.1.seq ∧
    (out.1 = 0 →
      journal_entry_is_open out.2.1 = true ∧
      out.2.2.seq = out.2.1.seq ∧
      (journal_entry_is_open j = false → j.seq < out.2.1.seq) ∧
      (out.2.1.getBuf out.2.1.seq).noflush = false) ∧
    (out.1 ≠ 0 → out.2.2 = res ∧
      (journal_entry_is_open out.2.1 = false ∨
       flags.watermark < out.2.1.watermark)) := by
  intro fuel
  induction fuel with
  | zero =>
    intro j res flags out hwf hfr hchk hrun
    simp [__journal_res_get] at hrun
  | succ fuel ih =>
    intro j res flags out hwf hfr hchk hrun
    cases hf : journal_res_get_fast j res flags with
    | some pair =>
      obtain ⟨ja, ra⟩ := pair
      simp only [__journal_res_get, hf] at hrun
      cases hrun
      have hopenj : journal_entry_is_open j = true :=
        res_fast_pre_open hwf.2.1 hf
      obtain ⟨hle, hseq, hbuf, hoff, hidx, hu64, _, _, _, _, _, _, _, _⟩ :=
        res_fast_ok_spec hchk hf
      have hopen2 : journal_entry_is_open ja = true := by
        simp only [journal_entry_is_open, __journal_entry_is_open, hoff]
        have := hwf.2.1
        simp only [decide_eq_true_eq]
        omega
      have hfr2 : journal_fresh ja := by
        intro _
        have : ja.getBuf ja.seq = j.getBuf j.seq := by
          simp [journal.getBuf, hbuf, hseq]
        rw [this]
        exact hfr hopenj
      refine ⟨wf_res_fast hwf hchk hf, hfr2, le_of_eq hseq.symm, ?_, ?_⟩
      · intro _
        exact ⟨hopen2, ((res_fast_grant_seq hwf hchk hf).1).trans hseq.symm,
          fun hx => absurd hx (by rw [hopenj]; simp), hfr2 hopen2⟩
      · intro hx
        exact absurd rfl hx
    | none =>
      by_cases herrj : bch2_journal_error j = true
      · simp only [__journal_res_get, hf, herrj, if_true] at hrun
        cases hrun
        have hcl : journal_entry_is_open j = false := by
          simp only [bch2_journal_error] at herrj
          simpa [journal_entry_is_open] using
            sentinel_not_open (Or.inr rfl) (by simpa using herrj)
        refine ⟨hwf, hfr, le_refl _, ?_, ?_⟩
        · intro h0
          simp [ERR_EROFS] at h0
        · intro _
          exact ⟨rfl, Or.inl hcl⟩
      · cases hl : journal_res_get_locked j flags with
        | none =>
          simp only [__journal_res_get, hf, herrj, hl] at hrun
          simp at hrun
        | some pr =>
          obtain ⟨ret, jl⟩ := pr
          obtain ⟨hwfl, hfrl, hlseq, hok, hnok⟩ := locked_spec hwf hfr hl
          have key : __journal_res_get (fuel + 1) j res flags =
              (let j3 :=
                if ret ≠ journal_err.ok ∧ ret ≠ journal_err.insufficient_devices ∧
                   jl.res_get_blocked_start = 0 then
                  { jl with res_get_blocked_start := max 1 jl.jiffies }
                else jl
              if ret = journal_err.ok then
                __journal_res_get fuel j3 res flags
              else
                let j4 :=
                  if (ret = journal_err.journal_full ∨
                      ret = journal_err.journal_pin_full) ∧
                     ¬ j3.can_discard ∧ nr_unwritten_journal_entries j3 = 0 ∧
                     flags.watermark = JOURNAL_WATERMARK_reserved then
                    { j3 with fatal := true }
                  else j3
                if (ret = journal_err.journal_full ∨
                    ret = journal_err.journal_pin_full) ∧ ¬ flags.nonblock then
                  if j3.can_discard then
                    __journal_res_get fuel (bch2_journal_do_discards j4) res flags
                  else
                    some (if ret = journal_err.insufficient_devices then ERR_EROFS
                          else ERR_EAGAIN, bch2_journal_reclaim j4, res)
                else
                  some (if ret = journal_err.insufficient_devices then ERR_EROFS
                        else ERR_EAGAIN, j4, res)) := by
            simp only [__journal_res_get, hf, herrj, hl]
            simp
          rw [key] at hrun
          set j3 := (if ret ≠ journal_err.ok ∧
              ret ≠ journal_err.insufficient_devices ∧
              jl.res_get_blocked_start = 0 then
              { jl with res_get_blocked_start := max 1 jl.jiffies } else jl) with hj3
          have h3res : j3.reservations = jl.reservations := by
            rw [hj3]; split <;> rfl
          have h3seq : j3.seq = jl.seq := by
            rw [hj3]; split <;> rfl
          have h3buf : j3.buf = jl.buf := by
            rw [hj3]; split <;> rfl
          have h3u : j3.cur_entry_u64s = jl.cur_entry_u64s := by
            rw [hj3]; split <;> rfl
          have h3cd : j3.can_discard = jl.can_discard := by
            rw [hj3]; split <;> rfl
          have h3wm : j3.watermark = jl.watermark := by
            rw [hj3]; split <;> rfl
          clear_value j3
          dsimp only [] at hrun
          obtain ⟨t1, t2, t3⟩ := journal_props_transfer h3res h3seq h3buf h3u
          by_cases hret : ret = journal_err.ok
          · rw [if_pos hret] at hrun
            obtain ⟨hol, hls, hnf, hds⟩ := hok hret
            obtain ⟨w1, w2, w3, w4, w5⟩ :=
              ih j3 res flags out (t1 hwfl) (t2 hfrl) hchk hrun
            have hw3 : j.seq + 1 ≤ out.2.1.seq := by
              have := w3
              rw [h3seq, hls] at this
              omega
            refine ⟨w1, w2, by omega, ?_, w5⟩
            intro h0
            obtain ⟨x1, x2, x3, x4⟩ := w4 h0
            exact ⟨x1, x2, fun _ => by omega, x4⟩
          · rw [if_neg hret] at hrun
            have hclose_or := hnok hret
            have hite : (if ret = journal_err.insufficient_devices then ERR_EROFS
                else ERR_EAGAIN) ≠ 0 := by
              split <;> decide
            have mainB : ∀ j4 : journal, j4.reservations = jl.reservations →
                j4.seq = jl.seq → j4.buf = jl.buf →
                j4.cur_entry_u64s = jl.cur_entry_u64s →
                j4.watermark = jl.watermark →
                ((if (ret = journal_err.journal_full ∨
                    ret = journal_err.journal_pin_full) ∧ ¬ flags.nonblock then
                  if j3.can_discard then
                    __journal_res_get fuel (bch2_journal_do_discards j4) res flags
                  else
                    some (if ret = journal_err.insufficient_devices then ERR_EROFS
                          else ERR_EAGAIN, bch2_journal_reclaim j4, res)
                else
                  some (if ret = journal_err.insufficient_devices then ERR_EROFS
                        else ERR_EAGAIN, j4, res)) :
                  Option (Int × journal × journal_res)) = some out →
                journal_wf out.2.1 ∧ journal_fresh out.2.1 ∧
                j.seq ≤ out.2.1.seq ∧
                (out.1 = 0 →
                  journal_entry_is_open out.2.1 = true ∧
                  out.2.2.seq = out.2.1.seq ∧
                  (journal_entry_is_open j = false → j.seq < out.2.1.seq) ∧
                  (out.2.1.getBuf out.2.1.seq).noflush = false) ∧
                (out.1 ≠ 0 → out.2.2 = res ∧
                  (journal_entry_is_open out.2.1 = false ∨
                   flags.watermark < out.2.1.watermark)) := by
              intro j4 h4res h4seq h4buf h4u h4wm hrun2
              obtain ⟨u1, u2, u3⟩ := journal_props_transfer h4res h4seq h4buf h4u
              by_cases hbr : (ret = journal_err.journal_full ∨
                  ret = journal_err.journal_pin_full) ∧ ¬ flags.nonblock
              · rw [if_pos hbr] at hrun2
                by_cases hcd : j3.can_discard
                · rw [if_pos hcd] at hrun2
                  obtain ⟨d1, d2, d3⟩ :=
                    journal_props_transfer (a := j4)
                      (b := bch2_journal_do_discards j4) rfl rfl rfl rfl
                  obtain ⟨w1, w2, w3, w4, w5⟩ :=
                    ih (bch2_journal_do_discards j4) res flags out
                      (d1 (u1 hwfl)) (d2 (u2 hfrl)) hchk hrun2
                  have hsq : (bch2_journal_do_discards j4).seq = jl.seq := h4seq
                  refine ⟨w1, w2, by rw [hsq] at w3; omega, ?_, w5⟩
                  intro h0
                  obtain ⟨x1, x2, x3, x4⟩ := w4 h0
                  refine ⟨x1, x2, ?_, x4⟩
                  intro hclj
                  have hopdd : journal_entry_is_open
                      (bch2_journal_do_discards j4) = journal_entry_is_open jl :=
                    d3.trans u3
                  rcases hclose_or with ⟨hwj, hjl⟩ | hcl
                  · have : journal_entry_is_open jl = false := by
                      rw [hjl]; exact hclj
                    have := x3 (hopdd.trans this)
                    rw [hsq] at this
                    have : jl.seq < out.2.1.seq := this
                    omega
                  · have := x3 (hopdd.trans hcl)
                    rw [hsq] at this
                    omega
                · rw [if_neg hcd] at hrun2
                  cases hrun2
                  obtain ⟨r1, r2, r3⟩ :=
                    journal_props_transfer (a := j4)
                      (b := bch2_journal_reclaim j4) rfl rfl rfl rfl
                  refine ⟨r1 (u1 hwfl), r2 (u2 hfrl), ?_, ?_, ?_⟩
                  · show j.seq ≤ (bch2_journal_reclaim j4).seq
                    have : (bch2_journal_reclaim j4).seq = jl.seq := h4seq
                    omega
                  · intro h0
                    exact absurd h0 hite
                  · intro _
                    refine ⟨rfl, ?_⟩
                    rcases hclose_or with ⟨hwj, hjl⟩ | hcl
                    · refine Or.inr ?_
                      show flags.watermark < (bch2_journal_reclaim j4).watermark
                      have : (bch2_journal_reclaim j4).watermark = jl.watermark :=
                        h4wm
                      rw [this, hjl]
                      exact hwj
                    · exact Or.inl ((r3.trans u3).trans hcl)
              · rw [if_neg hbr] at hrun2
                cases hrun2
                refine ⟨u1 hwfl, u2 hfrl, ?_, ?_, ?_⟩
                · show j.seq ≤ j4.seq
                  omega
                · intro h0
                  exact absurd h0 hite
                · intro _
                  refine ⟨rfl, ?_⟩
                  rcases hclose_or with ⟨hwj, hjl⟩ | hcl
                  · refine Or.inr ?_
                    rw [h4wm, hjl]
                    exact hwj
                  · exact Or.inl (u3.trans hcl)
            by_cases hstuck : (ret = journal_err.journal_full ∨
                ret = journal_err.journal_pin_full) ∧ ¬ j3.can_discard ∧
                nr_unwritten_journal_entries j3 = 0 ∧
                flags.watermark = JOURNAL_WATERMARK_reserved
            · rw [if_pos hstuck] at hrun
              exact mainB { j3 with fatal := true } h3res h3seq h3buf h3u h3wm hrun
            · rw [if_neg hstuck] at hrun
              exact mainB j3 h3res h3seq h3buf h3u h3wm hrun

theorem slowpath_watermark_fail : ∀ (fuel : Nat) (j : journal) (res : journal_res)
    (flags : journal_res_flags) (out : Int × journal × journal_res),
    flags.watermark < j.watermark →
    bch2_journal_res_get_slowpath fuel j res flags = some out →
    out.1 ≠ 0 := by
  intro fuel
  induction fuel with
  | zero =>
    intro j res flags out hw hrun
    simp [bch2_journal_res_get_slowpath] at hrun
  | succ fuel ih =>
    intro j res flags out hw hrun
    cases hg : __journal_res_get (fuel + 1) j res flags with
    | none =>
      simp only [bch2_journal_res_get_slowpath, hg] at hrun
      cases hrun
    | some trip =>
      obtain ⟨r, j1, res1⟩ := trip
      simp only [bch2_journal_res_get_slowpath, hg] at hrun
      by_cases herrj : bch2_journal_error j = true
      · have hfast := @res_fast_fails_watermark j res flags hw
        simp only [__journal_res_get, hfast, herrj, if_true] at hg
        simp only [Option.some.injEq, Prod.mk.injEq] at hg
        obtain ⟨hr, hj1, hres1⟩ := hg
        rw [if_pos (Or.inl (by rw [← hr]; decide))] at hrun
        cases hrun
        intro h0
        rw [← hr] at h0
        simp [ERR_EROFS] at h0
      · have herr : bch2_journal_error j = false := by simpa using herrj
        obtain ⟨hr, hjres, hjseq, hjbuf, hjwm, hres1⟩ :=
          (res_get_watermark_aux (fuel + 1) j res flags hw herr).1 _ hg
        have hr2 : r = ERR_EAGAIN := hr
        have hwm2 : j1.watermark = j.watermark := hjwm
        by_cases hnb : flags.nonblock = true
        · rw [if_pos (Or.inr hnb)] at hrun
          cases hrun
          intro h0
          have hz : r = 0 := h0
          rw [hr2] at hz
          simp [ERR_EAGAIN] at hz
        · rw [if_neg (by simp [hr2, hnb])] at hrun
          exact ih j1 res1 flags out (by rw [hwm2]; exact hw) hrun

theorem slowpath_spec : ∀ (fuel : Nat) (j : journal) (res : journal_res)
    (flags : journal_res_flags) (j2 : journal) (res2 : journal_res),
    journal_wf j → journal_fresh j → flags.check = false →
    journal_entry_is_open j = false →
    bch2_journal_res_get_slowpath fuel j res flags = some (0, j2, res2) →
    journal_wf j2 ∧ res2.seq = j2.seq ∧ j.seq < j2.seq ∧
    (j2.getBuf j2.seq).noflush = false ∧ journal_entry_is_open j2 = true := by
  intro fuel
  induction fuel with
  | zero =>
    intro j res flags j2 res2 _ _ _ _ hrun
    simp [bch2_journal_res_get_slowpath] at hrun
  | succ fuel ih =>
    intro j res flags j2 res2 hwf hfr hchk hcl hrun
    cases hg : __journal_res_get (fuel + 1) j res flags with
    | none =>
      simp only [bch2_journal_res_get_slowpath, hg] at hrun
      cases hrun
    | some trip =>
      obtain ⟨r, j1, res1⟩ := trip
      simp only [bch2_journal_res_get_slowpath, hg] at hrun
      obtain ⟨hwf1, hfr1, hle1, hsucc, hfail⟩ :=
        rg_spec (fuel + 1) j res flags (r, j1, res1) hwf hfr hchk hg
      by_cases hexit : r ≠ ERR_EAGAIN ∨ flags.nonblock = true
      · rw [if_pos hexit] at hrun
        simp only [Option.some.injEq, Prod.mk.injEq] at hrun
        obtain ⟨hr0, hj2, hres2⟩ := hrun
        subst hr0
        subst hj2
        subst hres2
        obtain ⟨ho, hrs, hstrict, hnf⟩ := hsucc rfl
        exact ⟨hwf1, hrs, hstrict hcl, hnf, ho⟩
      · rw [if_neg hexit] at hrun
        push_neg at hexit
        obtain ⟨hres1eq, hdisj⟩ := hfail (by simp [hexit.1, ERR_EAGAIN])
        rcases hdisj with hcl1 | hwm1
        · obtain ⟨w1, w2, w3, w4, w5⟩ :=
            ih j1 res1 flags j2 res2 hwf1 hfr1 hchk hcl1 hrun
          exact ⟨w1, w2, lt_of_le_of_lt hle1 w3, w4, w5⟩
        · exact absurd rfl
            (slowpath_watermark_fail fuel j1 res1 flags (0, j2, res2) hwm1 hrun)

theorem res_get_closed_spec {fuel : Nat} {j : journal} {res : journal_res}
    {u64s : Nat} {flags : journal_res_flags} {j2 : journal} {res2 : journal_res}
    (hwf : journal_wf j) (hfr : journal_fresh j) (hchk : flags.check = false)
    (hcl : journal_entry_is_open j = false)
    (h : bch2_journal_res_get fuel j res u64s flags = some (0, j2, res2)) :
    journal_wf j2 ∧ res2.seq = j2.seq ∧ j.seq < j2.seq ∧
    (j2.getBuf j2.seq).noflush = false ∧ journal_entry_is_open j2 = true := by
  have hfast : journal_res_get_fast j { res with u64s := u64s } flags = none :=
    res_fast_fails_closed hwf.2.1 hcl
  simp only [bch2_journal_res_get, hfast] at h
  exact slowpath_spec fuel j { res with u64s := u64s } flags j2 res2 hwf hfr hchk hcl h
theorem want_write_buf_flags {j : journal} {q : Bool × journal}
    (hlen : j.buf.length = JOURNAL_BUF_NR)
    (h : journal_entry_want_write j = some q) (k : Nat) :
    (q.2.getBuf k).must_flush = (j.getBuf k).must_flush ∧
    (q.2.getBuf k).noflush = (j.getBuf k).noflush ∧
    (q.2.getBuf k).waiters = (j.getBuf k).waiters := by
  simp only [journal_entry_want_write] at h
  split at h
  · cases hc : __journal_entry_close j JOURNAL_ENTRY_CLOSED_VAL with
    | none => rw [hc] at h; cases h
    | some j1 =>
      rw [hc] at h
      simp only [Option.map] at h
      cases h
      have hf := close_buf_flags hc hlen k
      exact ⟨hf.1, hf.2.1, hf.2.2.1⟩
  split at h
  · split at h
    · cases h
      by_cases hk : j.reservations.idx % JOURNAL_BUF_NR = k % JOURNAL_BUF_NR
      · have h1 : (j.setBuf j.reservations.idx
            { journal_cur_buf j with
                flush_time := max 1 j.jiffies, expires := j.jiffies }).getBuf k =
            (j.setBuf j.reservations.idx
            { journal_cur_buf j with
                flush_time := max 1 j.jiffies, expires := j.jiffies }).getBuf
              j.reservations.idx :=
          getBuf_congr _ hk.symm
      
        have h2 : (j.setBuf j.reservations.idx
            { journal_cur_buf j with
                flush_time := max 1 j.jiffies, expires := j.jiffies }).getBuf
              j.reservations.idx =
            { journal_cur_buf j with
                flush_time := max 1 j.jiffies, expires := j.jiffies } :=
          getBuf_setBuf_same _ _ _ hlen
        have h3 : j.getBuf k = journal_cur_buf j :=
          getBuf_congr _ hk.symm
        rw [h1, h2, h3]
        exact ⟨rfl, rfl, rfl⟩
      · have h1 := getBuf_setBuf_ne j j.reservations.idx k
          { journal_cur_buf j with
              flush_time := max 1 j.jiffies, expires := j.jiffies } hk
        rw [h1]
        exact ⟨rfl, rfl, rfl⟩
    · cases h
      exact ⟨rfl, rfl, rfl⟩
  · cases h
    exact ⟨rfl, rfl, rfl⟩

theorem flush_want_write_flags {j : journal} {s : Nat} {j1 : journal}
    (hlen : j.buf.length = JOURNAL_BUF_NR)
    (h : flush_want_write j s = some j1) (k : Nat) :
    (j1.getBuf k).must_flush = (j.getBuf k).must_flush ∧
    (j1.getBuf k).noflush = (j.getBuf k).noflush ∧
    (j1.getBuf k).waiters = (j.getBuf k).waiters := by
  simp only [flush_want_write] at h
  split at h
  · cases hw : journal_entry_want_write j with
    | none => rw [hw] at h; cases h
    | some q =>
      rw [hw] at h
      simp only [Option.map] at h
      cases h
      exact want_write_buf_flags hlen hw k
  · cases h
    exact ⟨rfl, rfl, rfl⟩
theorem flush_mark_tail {j2 : journal} {res : journal_res} {p : Nat}
    {out : Int × journal}
    (hlen : j2.buf.length = JOURNAL_BUF_NR)
    (hnf : (j2.getBuf res.seq).noflush = false)
    (hrun : (let b0 := j2.getBuf res.seq
             let b1 := { b0 with must_flush := true }
             let b2 := if b1.flush_time = 0 then
                         { b1 with flush_time := max 1 j2.jiffies,
                                   expires := j2.jiffies }
                       else b1
             let b3 := { b2 with waiters := b2.waiters ++ [p] }
             let j3 := j2.setBuf res.seq b3
             let j4 := bch2_journal_res_put j3 res
             match flush_want_write j4 res.seq with
             | none => none
             | some j5 => some ((0 : Int), j5)) = some out) :
    (out.2.getBuf res.seq).must_flush = true ∧
    (out.2.getBuf res.seq).noflush = false ∧
    p ∈ (out.2.getBuf res.seq).waiters := by
  have main : ∀ b3 : journal_buf, b3.must_flush = true →
      b3.noflush = (j2.getBuf res.seq).noflush → p ∈ b3.waiters →
      (match flush_want_write (bch2_journal_res_put (j2.setBuf res.seq b3) res)
          res.seq with
       | none => none
       | some j5 => some ((0 : Int), j5)) = some out →
      (out.2.getBuf res.seq).must_flush = true ∧
      (out.2.getBuf res.seq).noflush = false ∧
      p ∈ (out.2.getBuf res.seq).waiters := by
    intro b3 hmf hnf3 hpw hrun2
    cases hw5 : flush_want_write (bch2_journal_res_put (j2.setBuf res.seq b3) res)
        res.seq with
    | none => rw [hw5] at hrun2; cases hrun2
    | some j5 =>
      rw [hw5] at hrun2
      cases hrun2
      have hlen3 : (bch2_journal_res_put (j2.setBuf res.seq b3) res).buf.length =
          JOURNAL_BUF_NR := by
        rw [(res_put_frame _ res).2.1, buf_length_setBuf]
        exact hlen
      obtain ⟨w1, w2, w3⟩ := flush_want_write_flags hlen3 hw5 res.seq
      have hgb : (bch2_journal_res_put (j2.setBuf res.seq b3) res).getBuf res.seq =
          (j2.setBuf res.seq b3).getBuf res.seq := by
        simp [journal.getBuf, (res_put_frame _ res).2.1]
      have hsame : (j2.setBuf res.seq b3).getBuf res.seq = b3 :=
        getBuf_setBuf_same _ _ _ hlen
      refine ⟨?_, ?_, ?_⟩
      · show (j5.getBuf res.seq).must_flush = true
        rw [w1, hgb, hsame]
        exact hmf
      · show (j5.getBuf res.seq).noflush = false
        rw [w2, hgb, hsame, hnf3]
        exact hnf
      · show p ∈ (j5.getBuf res.seq).waiters
        rw [w3, hgb, hsame]
        exact hpw
  dsimp only [] at hrun
  by_cases hft : (j2.getBuf res.seq).flush_time = 0
  · rw [if_pos hft] at hrun
    exact main
      { j2.getBuf res.seq with
          must_flush := true,
          flush_time := max 1 j2.jiffies,
          expires := j2.jiffies,
          waiters := (j2.getBuf res.seq).waiters ++ [p] }
      rfl rfl (by simp) hrun
  · rw [if_neg hft] at hrun
    exact main
      { j2.getBuf res.seq with
          must_flush := true,
          waiters := (j2.getBuf res.seq).waiters ++ [p] }
      rfl rfl (by simp) hrun
theorem flush_recheck_spec : ∀ (fuel rfuel : Nat) (j : journal) (sq p : Nat)
    (out : Int × journal),
    journal_wf j → journal_fresh j → sq ≤ journal_cur_seq j + 1 →
    flush_recheck fuel rfuel j sq (some p) = some out → out.1 = 0 →
    ∃ s1, sq ≤ s1 ∧ (out.2.getBuf s1).must_flush = true ∧
      (out.2.getBuf s1).noflush = false ∧ p ∈ (out.2.getBuf s1).waiters := by
  intro fuel
  induction fuel with
  | zero =>
    intro rfuel j sq p out _ _ _ hrun _
    simp [flush_recheck] at hrun
  | succ fuel ih =>
    intro rfuel j sq p out hwf hfr hsq hrun h0
    simp only [flush_recheck] at hrun
    by_cases hgt : sq > journal_cur_seq j
    · rw [if_pos hgt] at hrun
      cases hcl : (if journal_entry_is_open j then
          __journal_entry_close j JOURNAL_ENTRY_CLOSED_VAL else some j) with
      | none =>
        rw [hcl] at hrun
        dsimp only [] at hrun
        cases hrun
      | some j1 =>
        rw [hcl] at hrun
        dsimp only [] at hrun
        have hj1 : journal_wf j1 ∧ journal_entry_is_open j1 = false ∧
            j1.seq = j.seq := by
          by_cases hop : journal_entry_is_open j = true
          · rw [if_pos hop] at hcl
            exact ⟨wf_close hwf (Or.inl rfl) hcl, close_closed_after (Or.inl rfl) hcl,
              (close_frame hcl).1⟩
          · rw [if_neg hop] at hcl
            cases hcl
            exact ⟨hwf, by simpa using hop, rfl⟩
        obtain ⟨hwf1, hcl1, hseq1⟩ := hj1
        cases hr : bch2_journal_res_get rfuel j1 default (jset_u64s 0)
            { watermark := 0, nonblock := false, check := false } with
        | none =>
          rw [hr] at hrun
          dsimp only [] at hrun
          cases hrun
        | some trip =>
          obtain ⟨ret, j2, res⟩ := trip
          rw [hr] at hrun
          dsimp only [] at hrun
          by_cases hret : ret ≠ 0
          · rw [if_pos hret] at hrun
            simp only [Option.some.injEq] at hrun
            rw [← hrun] at h0
            exact absurd h0 hret
          · rw [if_neg hret] at hrun
            push_neg at hret
            subst hret
            obtain ⟨hwf2, hrs, hlt, hnf, hop2⟩ :=
              res_get_closed_spec hwf1 (fresh_of_closed hcl1) rfl hcl1 hr
            have hT := flush_mark_tail hwf2.1 (by rw [hrs]; exact hnf) hrun
            have hg2 : j.seq < sq := hgt
            have hsq2 : sq ≤ j.seq + 1 := hsq
            refine ⟨res.seq, ?_, hT.1, hT.2.1, hT.2.2⟩
            have h5 : res.seq = j2.seq := hrs
            have h6 : j1.seq < j2.seq := hlt
            omega
    · rw [if_neg hgt] at hrun
      cases hb : journal_seq_to_buf j sq with
      | none =>
        rw [hb] at hrun
        dsimp only [] at hrun
        cases hrun
      | some b =>
        rw [hb] at hrun
        dsimp only [] at hrun
        have hbval : b = j.getBuf sq := by
          simp only [journal_seq_to_buf] at hb
          split at hb
          · cases hb; rfl
          · cases hb
        by_cases hnfb : b.noflush = true
        · rw [if_pos hnfb] at hrun
          have hle : sq ≤ journal_cur_seq j := Nat.le_of_not_lt hgt
          obtain ⟨s1, hs1, hm, hn, hw⟩ :=
            ih rfuel j (sq + 1) p out hwf hfr (by omega) hrun h0
          exact ⟨s1, by omega, hm, hn, hw⟩
        · rw [if_neg hnfb] at hrun
          have hnfb2 : b.noflush = false := by simpa using hnfb
          have main : ∀ b2 : journal_buf, b2.must_flush = true →
              b2.noflush = b.noflush → p ∈ b2.waiters →
              (match flush_want_write (j.setBuf sq b2) sq with
               | none => none
               | some j5 => some ((0 : Int), j5)) = some out →
              ∃ s1, sq ≤ s1 ∧ (out.2.getBuf s1).must_flush = true ∧
                (out.2.getBuf s1).noflush = false ∧
                p ∈ (out.2.getBuf s1).waiters := by
            intro b2 hmf hnf2 hpw hrun2
            cases hw5 : flush_want_write (j.setBuf sq b2) sq with
            | none => rw [hw5] at hrun2; cases hrun2
            | some j5 =>
              rw [hw5] at hrun2
              cases hrun2
              have hlen1 : (j.setBuf sq b2).buf.length = JOURNAL_BUF_NR := by
                rw [buf_length_setBuf]
                exact hwf.1
              obtain ⟨w1, w2, w3⟩ := flush_want_write_flags hlen1 hw5 sq
              have hsame : (j.setBuf sq b2).getBuf sq = b2 :=
                getBuf_setBuf_same _ _ _ hwf.1
              refine ⟨sq, le_refl _, ?_, ?_, ?_⟩
              · show (j5.getBuf sq).must_flush = true
                rw [w1, hsame]
                exact hmf
              · show (j5.getBuf sq).noflush = false
                rw [w2, hsame, hnf2]
                exact hnfb2
              · show p ∈ (j5.getBuf sq).waiters
                rw [w3, hsame]
                exact hpw
          exact main
            { b with
                must_flush := true,
                waiters := b.waiters ++ [p] }
            rfl rfl (by simp) hrun
/-- C7: flush requests catch up over noflush entries: for a sequence S
not yet durably flushed, within range of the current sequence and not
past a halted sequence, a successful bch2_journal_flush_seq_async run
marks some buffer holding a sequence at least S must_flush, that buffer
is not noflush (skipping over consecutive noflush buffers, opening a
fresh entry when the search runs past the current sequence), and the
caller's waiter is registered on that buffer. -/
theorem C7_flush_catches_up {fuel rfuel : Nat} {j : journal} {S p : Nat}
    {out : Int × journal}
    (hwf : journal_wf j) (hfr : journal_fresh j)
    (hsod : j.seq_ondisk ≤ j.seq)
    (hnd : j.flushed_seq_ondisk < S)
    (hrange : S ≤ journal_cur_seq j)
    (hne : j.err_seq = 0)
    (hrun : bch2_journal_flush_seq_async fuel rfuel j S (some p) = some out)
    (h0 : out.1 = 0) :
    ∃ s1, S ≤ s1 ∧ (out.2.getBuf s1).must_flush = true ∧
      (out.2.getBuf s1).noflush = false ∧ p ∈ (out.2.getBuf s1).waiters := by
  have h2 : journal_cur_seq j = j.seq := rfl
  simp only [bch2_journal_flush_seq_async] at hrun
  rw [if_neg (by omega)] at hrun
  rw [if_neg (by omega)] at hrun
  rw [if_neg (by simp [hne])] at hrun
  rw [if_neg (by omega)] at hrun
  have h1 : journal_last_unwritten_seq j = j.seq_ondisk + 1 := rfl
  have hinv : max S (journal_last_unwritten_seq j) ≤ journal_cur_seq j + 1 := by
    rw [h1, h2]
    rw [h2] at hrange
    omega
  obtain ⟨s1, hs1, hm, hn, hw⟩ := flush_recheck_spec fuel rfuel j
    (max S (journal_last_unwritten_seq j)) p out hwf hfr hinv hrun h0
  exact ⟨s1, le_trans (le_max_left _ _) hs1, hm, hn, hw⟩

/-- A concrete journal for the flush witness: closed at sequence 2,
nothing on disk yet, the buffer of sequence 1 written noflush. -/
def jC7w : journal :=
  { jC1w with
    reservations :=
      { jC1w.reservations with
          cur_entry_offset := JOURNAL_ENTRY_CLOSED_VAL, idx := 2 },
    seq := 2, seq_ondisk := 0, flushed_seq_ondisk := 0, last_seq_ondisk := 0,
    pin := { front := 1, size := 8, counts := [1, 1] },
    buf := [wbuf, { wbuf with data_seq := 1, noflush := true },
      { wbuf with data_seq := 2 }, wbuf] }

/-- The output of the witness flush run. -/
def jC7out : Int × journal :=
  (bch2_journal_flush_seq_async 2 1 jC7w 1 (some 7)).getD (1, jC7w)

/-- Witness for C7: flushing sequence 1 of jC7w skips the noflush
buffer of sequence 1 and satisfies the request at sequence 2. -/
theorem C7_flush_catches_up_witness :
    ∃ s1, 1 ≤ s1 ∧ (jC7out.2.getBuf s1).must_flush = true ∧
      (jC7out.2.getBuf s1).noflush = false ∧ 7 ∈ (jC7out.2.getBuf s1).waiters :=
  @C7_flush_catches_up 2 1 jC7w 1 7 jC7out (by decide)
    (fresh_of_closed (by decide)) (by decide) (by decide) (by decide)
    (by decide) (by decide) (by decide)

end Bcachefs
